import Mathlib

/-!
Verification of the Battle State Encoder and Action Legality Resolver of a
Pokemon-Showdown reinforcement-learning bot.

The Python sources (src/state/encoder.py, src/state/items_and_abilities.py,
src/bot/action_space.py) are shallowly embedded below: every Python function
is translated into an executable Lean definition over exact rational
arithmetic (floats become `ℚ`, `math.floor` becomes `Int.floor`), and the
claims of the specification are settled as theorems about those definitions.
-/

namespace PS

/-- PokemonType: the 18 element types of the game (encoder.py TYPES list). -/
inductive PType where
  | NORMAL | FIRE | WATER | ELECTRIC | GRASS | ICE | FIGHTING | POISON
  | GROUND | FLYING | PSYCHIC | BUG | ROCK | GHOST | DRAGON | DARK
  | STEEL | FAIRY
deriving DecidableEq, Repr

/-- MoveCategory: physical / special / status (poke-env MoveCategory names). -/
inductive MoveCategory where
  | physical | special | status
deriving DecidableEq, Repr

/-- StatusCond: the six status conditions tracked by the encoder (STATUSES). -/
inductive StatusCond where
  | brn | frz | par | psn | tox | slp
deriving DecidableEq, Repr

/-- WeatherC: the eight weathers in encoder.py WEATHERS. -/
inductive WeatherC where
  | sunnyday | raindance | sandstorm | hail | snow
  | desolateland | primordialsea | deltastream
deriving DecidableEq, Repr

/-- TerrainC: the four terrains in encoder.py FIELDS, plus a catch-all for
other battle.fields entries (e.g. Trick Room) that the encoder skips. -/
inductive TerrainC where
  | electricTerrain | grassyTerrain | mistyTerrain | psychicTerrain
  | otherField
deriving DecidableEq, Repr

/-- SideCond: side conditions read by the encoder and damage formula, plus a
catch-all for other side conditions present in the battle object. -/
inductive SideCond where
  | reflect | lightscreen | auroraveil | stealthrock | spikes
  | toxicspikes | stickyweb | otherSide
deriving DecidableEq, Repr

/-- TYPE_CHART: the Gen 6+ effectiveness chart of `_build_type_chart`
(encoder.py lines 131-165).  The Python code fills a dict with 1.0 and then
overwrites entries with the `se` (2.0) / `nve` (0.5) / `imm` (0.0) calls;
no entry is written twice, so the final dict is the case analysis below,
one group per source line. -/
def TYPE_CHART (atk dfd : PType) : ℚ :=
  match atk, dfd with
  -- nve(NORMAL: ROCK, STEEL); imm(NORMAL: GHOST)
  | .NORMAL, .ROCK => 1/2
  | .NORMAL, .STEEL => 1/2
  | .NORMAL, .GHOST => 0
  -- se(FIRE: GRASS, ICE, BUG, STEEL); nve(FIRE: FIRE, WATER, ROCK, DRAGON)
  | .FIRE, .GRASS => 2
  | .FIRE, .ICE => 2
  | .FIRE, .BUG => 2
  | .FIRE, .STEEL => 2
  | .FIRE, .FIRE => 1/2
  | .FIRE, .WATER => 1/2
  | .FIRE, .ROCK => 1/2
  | .FIRE, .DRAGON => 1/2
  -- se(WATER: FIRE, GROUND, ROCK); nve(WATER: WATER, GRASS, DRAGON)
  | .WATER, .FIRE => 2
  | .WATER, .GROUND => 2
  | .WATER, .ROCK => 2
  | .WATER, .WATER => 1/2
  | .WATER, .GRASS => 1/2
  | .WATER, .DRAGON => 1/2
  -- se(ELECTRIC: WATER, FLYING); nve(ELECTRIC: ELECTRIC, GRASS, DRAGON);
  -- imm(ELECTRIC: GROUND)
  | .ELECTRIC, .WATER => 2
  | .ELECTRIC, .FLYING => 2
  | .ELECTRIC, .ELECTRIC => 1/2
  | .ELECTRIC, .GRASS => 1/2
  | .ELECTRIC, .DRAGON => 1/2
  | .ELECTRIC, .GROUND => 0
  -- se(GRASS: WATER, GROUND, ROCK);
  -- nve(GRASS: FIRE, GRASS, POISON, FLYING, BUG, DRAGON, STEEL)
  | .GRASS, .WATER => 2
  | .GRASS, .GROUND => 2
  | .GRASS, .ROCK => 2
  | .GRASS, .FIRE => 1/2
  | .GRASS, .GRASS => 1/2
  | .GRASS, .POISON => 1/2
  | .GRASS, .FLYING => 1/2
  | .GRASS, .BUG => 1/2
  | .GRASS, .DRAGON => 1/2
  | .GRASS, .STEEL => 1/2
  -- se(ICE: GRASS, GROUND, FLYING, DRAGON); nve(ICE: FIRE, WATER, ICE, STEEL)
  | .ICE, .GRASS => 2
  | .ICE, .GROUND => 2
  | .ICE, .FLYING => 2
  | .ICE, .DRAGON => 2
  | .ICE, .FIRE => 1/2
  | .ICE, .WATER => 1/2
  | .ICE, .ICE => 1/2
  | .ICE, .STEEL => 1/2
  -- se(FIGHTING: NORMAL, ICE, ROCK, DARK, STEEL);
  -- nve(FIGHTING: POISON, FLYING, PSYCHIC, BUG, FAIRY); imm(FIGHTING: GHOST)
  | .FIGHTING, .NORMAL => 2
  | .FIGHTING, .ICE => 2
  | .FIGHTING, .ROCK => 2
  | .FIGHTING, .DARK => 2
  | .FIGHTING, .STEEL => 2
  | .FIGHTING, .POISON => 1/2
  | .FIGHTING, .FLYING => 1/2
  | .FIGHTING, .PSYCHIC => 1/2
  | .FIGHTING, .BUG => 1/2
  | .FIGHTING, .FAIRY => 1/2
  | .FIGHTING, .GHOST => 0
  -- se(POISON: GRASS, FAIRY); nve(POISON: POISON, GROUND, ROCK, GHOST);
  -- imm(POISON: STEEL)
  | .POISON, .GRASS => 2
  | .POISON, .FAIRY => 2
  | .POISON, .POISON => 1/2
  | .POISON, .GROUND => 1/2
  | .POISON, .ROCK => 1/2
  | .POISON, .GHOST => 1/2
  | .POISON, .STEEL => 0
  -- se(GROUND: FIRE, ELECTRIC, POISON, ROCK, STEEL); nve(GROUND: GRASS, BUG);
  -- imm(GROUND: FLYING)
  | .GROUND, .FIRE => 2
  | .GROUND, .ELECTRIC => 2
  | .GROUND, .POISON => 2
  | .GROUND, .ROCK => 2
  | .GROUND, .STEEL => 2
  | .GROUND, .GRASS => 1/2
  | .GROUND, .BUG => 1/2
  | .GROUND, .FLYING => 0
  -- se(FLYING: GRASS, FIGHTING, BUG); nve(FLYING: ELECTRIC, ROCK, STEEL)
  | .FLYING, .GRASS => 2
  | .FLYING, .FIGHTING => 2
  | .FLYING, .BUG => 2
  | .FLYING, .ELECTRIC => 1/2
  | .FLYING, .ROCK => 1/2
  | .FLYING, .STEEL => 1/2
  -- se(PSYCHIC: FIGHTING, POISON); nve(PSYCHIC: PSYCHIC, STEEL);
  -- imm(PSYCHIC: DARK)
  | .PSYCHIC, .FIGHTING => 2
  | .PSYCHIC, .POISON => 2
  | .PSYCHIC, .PSYCHIC => 1/2
  | .PSYCHIC, .STEEL => 1/2
  | .PSYCHIC, .DARK => 0
  -- se(BUG: GRASS, PSYCHIC, DARK);
  -- nve(BUG: FIRE, FIGHTING, FLYING, GHOST, STEEL, FAIRY)
  | .BUG, .GRASS => 2
  | .BUG, .PSYCHIC => 2
  | .BUG, .DARK => 2
  | .BUG, .FIRE => 1/2
  | .BUG, .FIGHTING => 1/2
  | .BUG, .FLYING => 1/2
  | .BUG, .GHOST => 1/2
  | .BUG, .STEEL => 1/2
  | .BUG, .FAIRY => 1/2
  -- se(ROCK: FIRE, ICE, FLYING, BUG); nve(ROCK: FIGHTING, GROUND, STEEL)
  | .ROCK, .FIRE => 2
  | .ROCK, .ICE => 2
  | .ROCK, .FLYING => 2
  | .ROCK, .BUG => 2
  | .ROCK, .FIGHTING => 1/2
  | .ROCK, .GROUND => 1/2
  | .ROCK, .STEEL => 1/2
  -- se(GHOST: PSYCHIC, GHOST); nve(GHOST: DARK); imm(GHOST: NORMAL)
  | .GHOST, .PSYCHIC => 2
  | .GHOST, .GHOST => 2
  | .GHOST, .DARK => 1/2
  | .GHOST, .NORMAL => 0
  -- se(DRAGON: DRAGON); nve(DRAGON: STEEL); imm(DRAGON: FAIRY)
  | .DRAGON, .DRAGON => 2
  | .DRAGON, .STEEL => 1/2
  | .DRAGON, .FAIRY => 0
  -- se(DARK: PSYCHIC, GHOST); nve(DARK: FIGHTING, DARK, FAIRY)
  | .DARK, .PSYCHIC => 2
  | .DARK, .GHOST => 2
  | .DARK, .FIGHTING => 1/2
  | .DARK, .DARK => 1/2
  | .DARK, .FAIRY => 1/2
  -- se(STEEL: ICE, ROCK, FAIRY); nve(STEEL: FIRE, WATER, ELECTRIC, STEEL)
  | .STEEL, .ICE => 2
  | .STEEL, .ROCK => 2
  | .STEEL, .FAIRY => 2
  | .STEEL, .FIRE => 1/2
  | .STEEL, .WATER => 1/2
  | .STEEL, .ELECTRIC => 1/2
  | .STEEL, .STEEL => 1/2
  -- se(FAIRY: FIGHTING, DRAGON, DARK); nve(FAIRY: FIRE, POISON, STEEL)
  | .FAIRY, .FIGHTING => 2
  | .FAIRY, .DRAGON => 2
  | .FAIRY, .DARK => 2
  | .FAIRY, .FIRE => 1/2
  | .FAIRY, .POISON => 1/2
  | .FAIRY, .STEEL => 1/2
  -- every entry the Python code never overwrites keeps the initial 1.0
  | _, _ => 1

/-- type_effectiveness: `_type_effectiveness` (encoder.py lines 171-180).
The defender is represented by its `types` list (entries may be None);
the Python membership tests `move_type in TYPE_CHART` and
`def_type in TYPE_CHART[move_type]` always hold because the chart is total,
so only the None check remains. -/
def type_effectiveness (moveType : PType) (defenderTypes : List (Option PType)) : ℚ :=
  defenderTypes.foldl
    (fun mult defType =>
      match defType with
      | some d => mult * TYPE_CHART moveType d
      | none => mult) 1

/-- boost_multiplier: `_boost_multiplier` (encoder.py lines 187-192). -/
def boost_multiplier (boost : ℤ) : ℚ :=
  if boost ≥ 0 then (2 + (boost : ℚ)) / 2 else 2 / (2 - (boost : ℚ))

/-- stat_at_100: `_stat_at_100` (encoder.py lines 195-202), the level-100
stat estimate with fixed IVs 31 and EVs 85. -/
def stat_at_100 (base : ℕ) (isHp : Bool) : ℚ :=
  ((⌊((2 * (base : ℚ) + 31 + 21) * 100 / 100)⌋ : ℤ) : ℚ) +
    (if isHp then 110 else 5)

/-- baseDamage: the nested integer-floor base-damage formula shared by
`_estimate_damage` (encoder.py lines 602-604) and the unrevealed-move
fallback of `_best_damage_vs` (lines 672-674):
floor(floor(floor(2*100/5 + 2) * power * atk / dfd / 50) + 2). -/
def baseDamage (power atk dfd : ℚ) : ℤ :=
  ⌊((⌊((⌊((2 : ℚ) * 100 / 5 + 2)⌋ : ℚ) * power * atk / dfd / 50)⌋ : ℚ) + 2)⌋

/-- MoveS: snapshot of a move (poke-env Move fields read by the encoder).
`accuracy = none` models Python `accuracy is True`; `some q` a numeric
accuracy. Ids are stored as the lowercase strings poke-env uses. -/
structure MoveS where
  id : String
  mtype : PType
  category : MoveCategory
  basePower : ℕ
  accuracy : Option ℚ
  currentPP : Option ℕ
  maxPP : ℕ
deriving DecidableEq, Repr

/-- BaseStats: the base-stat dictionary of a Pokemon; `none` models a key
missing from the dict (the Python code reads each key with a default). -/
structure BaseStats where
  hp : Option ℕ
  atk : Option ℕ
  dfn : Option ℕ
  spa : Option ℕ
  spd : Option ℕ
  spe : Option ℕ
deriving DecidableEq, Repr

/-- Boosts: the boost-stage dictionary of a Pokemon (read with default 0). -/
structure Boosts where
  atk : Option ℤ
  dfn : Option ℤ
  spa : Option ℤ
  spd : Option ℤ
  spe : Option ℤ
  accuracy : Option ℤ
  evasion : Option ℤ
deriving DecidableEq, Repr

/-- PokemonS: snapshot of a Pokemon as read by the encoder and the action
mask. `pid` models Python object identity (`id(p)`), used by
`get_action_mask` to test membership in `battle.available_switches`. -/
structure PokemonS where
  pid : ℕ
  types : List (Option PType)
  ability : Option String
  item : Option String
  status : Option StatusCond
  curHpFraction : ℚ
  fainted : Bool
  active : Bool
  moves : List MoveS
  baseStats : BaseStats
  boosts : Boosts
deriving DecidableEq, Repr

/-- BattleS: snapshot of the battle object fields read by encoder.py and
action_space.py.  `weather` and `fields` model the key lists of the
corresponding dicts (insertion order preserved); side conditions are
association lists from condition to layer count. -/
structure BattleS where
  weather : List WeatherC
  fields : List TerrainC
  sideConditions : List (SideCond × ℕ)
  oppSideConditions : List (SideCond × ℕ)
  team : List PokemonS
  oppTeam : List PokemonS
  activePokemon : Option PokemonS
  oppActivePokemon : Option PokemonS
  availableSwitches : List PokemonS
  availableMoves : List MoveS
  availableZMoves : List MoveS
  canMegaEvolve : Bool
  canZMove : Bool
  canDynamax : Bool
  canTera : Bool
  validOrders : List String
deriving DecidableEq, Repr

/-- clean: items_and_abilities.py lines 102-106, the identifier normalizer
`s.lower().replace(" ", "").replace("-", "").replace("_", "")`, written
character-wise (lowercase every character, drop spaces/hyphens/underscores)
so that it evaluates by kernel reduction. -/
def clean (s : String) : String :=
  ⟨(s.data.map Char.toLower).filter (fun c => !(c == ' ' || c == '-' || c == '_'))⟩

/-- cleanOpt: `clean` lifted to optional identifiers (Python clean(None) = None). -/
def cleanOpt (s : Option String) : Option String :=
  s.map clean

/-- PUNCH_MOVES (items_and_abilities.py lines 38-44). -/
def PUNCH_MOVES : List String :=
  [ "bulletpunch", "cometpunch", "dizzypunch", "drainpunch", "dynamicpunch",
    "firepunch", "focuspunch", "hammerarm", "icehammer", "icepunch",
    "machpunch", "megapunch", "meteormash", "poisonjab", "poweruppunch",
    "shadowpunch", "skyuppercut", "superpower", "thunderpunch",
    "zippyzap", "firstimpression"]

/-- RECOIL_MOVES (lines 47-51). -/
def RECOIL_MOVES : List String :=
  [ "bravebird", "doubleedge", "flareblitz", "headsmash", "highjumpkick",
    "jumpkick", "submission", "takedown", "volttackle", "wildcharge",
    "woodhammer", "headcharge"]

/-- BITE_MOVES (lines 54-57). -/
def BITE_MOVES : List String :=
  [ "bite", "crunch", "firefang", "hyperfang", "icefang", "poisonfang",
    "psychicfangs", "thunderfang"]

/-- PULSE_MOVES (lines 60-64). -/
def PULSE_MOVES : List String :=
  [ "aurasphere", "darkpulse", "dragonpulse", "healpulse", "hokeypokey",
    "lusterpurge", "mindblown", "moonblast", "originpulse", "terrainpulse",
    "waterpulse"]

/-- SOUND_MOVES (lines 67-73). -/
def SOUND_MOVES : List String :=
  [ "boomburst", "bugbuzz", "chatter", "clangingscales", "clangoroussoul",
    "disarmingvoice", "echoedvoice", "grasswhistle", "growl", "hypervoice",
    "metalsound", "nobleroar", "overdrive", "partingshot", "perishsong",
    "relicsong", "roar", "round", "screech", "sing", "snarl", "snore",
    "sparklingsong", "supersonic", "uproar", "healbell"]

/-- CONTACT_MOVES (lines 76-87): the literal set unioned with PUNCH_MOVES
and BITE_MOVES. -/
def CONTACT_MOVES : List String :=
  [ "aquajet", "aquastep", "bayonetcharge", "bodypress", "bodyslam",
    "bravebird", "bulldoze", "closecombat", "crunch", "doubleedge",
    "drainpunch", "dragonrush", "dragonclaw", "dragonwhip", "extremespeed",
    "facade", "falseswipe", "flareblitz", "flyingpress", "focuspunch",
    "geargrind", "headsmash", "highjumpkick", "iciclecrash", "ironhead",
    "leafblade", "lowkick", "lowsweep", "lunge", "nightslash", "outrage",
    "phantomforce", "playrough", "poisonjab", "psychocut", "psychicfangs",
    "rapidspin", "shadowclaw", "shadowsneak", "slash", "stoneedge",
    "submission", "superpower", "takedown", "thunderpunch",
    "uturn", "woodhammer", "xscissor", "zenheadbutt"] ++
  PUNCH_MOVES ++ BITE_MOVES

/-- BALL_BOMB_MOVES: the second, overriding definition in
items_and_abilities.py (lines 548-564); this is the module-level value the
encoder imports.  Duplicated literals are harmless under `List.contains`. -/
def BALL_BOMB_MOVES : List String :=
  [ "acidspray", "aurasphere", "barrage", "beachbomb", "boulderheave",
    "cannonball", "darkpulse",
    "eggbomb", "electroball", "energyball", "focusblast", "gunkshot",
    "gyroball", "iceballmove", "icyball", "magicroom", "magnetbomb",
    "mistball", "mudbomb", "octazooka", "particlestorm", "payday",
    "rockblast", "rockwrecker", "seedbomb", "seedflare", "shadowball",
    "smellingsalts", "sludgebomb", "solarbeam", "syrupbomb", "thunderball",
    "weatherball", "zapbomb", "zingzap",
    "aurasphere", "barrage", "beachbomb", "dragonball", "eggbomb",
    "electroball", "energyball", "focusblast", "gunkshot", "gyroball",
    "iceball", "leafstorm", "magnetbomb", "mistball", "mudbomb",
    "octazooka", "payday", "rockblast", "rockwrecker", "seedbomb",
    "seedflare", "shadowball", "sludgebomb", "weatherball",
    "pollenpuff", "syrupbomb", "maliciousmoonsault"]

/-- AttackItemEntry: the fields of an ATTACK_ITEMS record that
`get_attack_item_mult` reads (`mult`, `category`, `supereffective_only`,
with the Python `.get` defaults materialized).  The `user_species`,
`types`, `punch_only` and `note` fields of the Python dict are never read
by the lookup function and are omitted. -/
structure AttackItemEntry where
  mult : ℚ
  category : Option MoveCategory
  supereffectiveOnly : Bool
deriving DecidableEq, Repr

/-- ATTACK_ITEMS (items_and_abilities.py lines 116-152). -/
def ATTACK_ITEMS : List (String × AttackItemEntry) :=
  [ ( "lifeorb", ⟨13/10, none, false⟩),
    ( "muscleband", ⟨11/10, some .physical, false⟩),
    ( "wiseglasses", ⟨11/10, some .special, false⟩),
    ( "expertbelt", ⟨6/5, none, true⟩),
    ( "choiceband", ⟨3/2, some .physical, false⟩),
    ( "choicespecs", ⟨3/2, some .special, false⟩),
    ( "choicescarf", ⟨1, none, false⟩),
    ( "adamantorb", ⟨6/5, none, false⟩),
    ( "lustrousorb", ⟨6/5, none, false⟩),
    ( "griseousorb", ⟨6/5, none, false⟩),
    ( "souldew", ⟨6/5, none, false⟩),
    ( "punchingglove", ⟨11/10, some .physical, false⟩),
    ( "throatspray", ⟨1, some .special, false⟩),
    ( "metronome", ⟨1, none, false⟩)]

/-- DefenseItemEntry: fields of a DEFENSE_ITEMS record read by
`get_defense_item_divisor`; `consumedNote` materializes the Python test
`"consumed" in entry.get("note", "")`. -/
structure DefenseItemEntry where
  divisor : ℚ
  category : Option MoveCategory
  itype : Option PType
  consumedNote : Bool
deriving DecidableEq, Repr

/-- DEFENSE_ITEMS (items_and_abilities.py lines 161-207). -/
def DEFENSE_ITEMS : List (String × DefenseItemEntry) :=
  [ ( "eviolite", ⟨3/2, none, none, false⟩),
    ( "assaultvest", ⟨3/2, some .special, none, false⟩),
    ( "occaberry", ⟨2, some .physical, some .FIRE, true⟩),
    ( "passhoberry", ⟨2, some .special, some .WATER, true⟩),
    ( "wacanberry", ⟨2, some .special, some .ELECTRIC, true⟩),
    ( "rindoberry", ⟨2, some .special, some .GRASS, true⟩),
    ( "yacheberry", ⟨2, some .special, some .ICE, true⟩),
    ( "chopleberry", ⟨2, some .physical, some .FIGHTING, true⟩),
    ( "kebiaberry", ⟨2, some .physical, some .POISON, true⟩),
    ( "shucaberry", ⟨2, some .physical, some .GROUND, true⟩),
    ( "cobaberry", ⟨2, some .physical, some .FLYING, true⟩),
    ( "payapaberry", ⟨2, some .special, some .PSYCHIC, true⟩),
    ( "tangaberry", ⟨2, some .physical, some .BUG, true⟩),
    ( "chartiberry", ⟨2, some .special, some .ROCK, true⟩),
    ( "kasibberry", ⟨2, some .special, some .GHOST, true⟩),
    ( "habanberry", ⟨2, some .special, some .DRAGON, true⟩),
    ( "colburberry", ⟨2, some .special, some .DARK, true⟩),
    ( "babiriberry", ⟨2, some .physical, some .STEEL, true⟩),
    ( "chilanberry", ⟨2, some .physical, some .NORMAL, true⟩),
    ( "roseliberry", ⟨2, some .special, some .FAIRY, true⟩),
    ( "rockyhelmet", ⟨1, none, none, false⟩)]

/-- SPEED_ITEMS (lines 215-230); only the `mult` field is ever read. -/
def SPEED_ITEMS : List (String × ℚ) :=
  [ ( "choicescarf", 3/2),
    ( "ironball", 1/2),
    ( "machobrace", 1/2),
    ( "powerweight", 1/2),
    ( "powerbracer", 1/2),
    ( "powerbelt", 1/2),
    ( "powerlens", 1/2),
    ( "powerband", 1/2),
    ( "poweranklet", 1/2),
    ( "quickpowder", 2),
    ( "fullincense", 1/2),
    ( "laggingitail", 1/2),
    ( "salacberry", 3/2),
    ( "etherberry", 1)]

/-- TYPE_BOOST_ITEMS (lines 239-322). -/
def TYPE_BOOST_ITEMS : List (String × PType) :=
  [ ( "silkscarf", .NORMAL),
    ( "normalplate", .NORMAL),
    ( "blackbelt", .FIGHTING),
    ( "fistplate", .FIGHTING),
    ( "blackgloveitem", .FIGHTING),
    ( "sharpbeak", .FLYING),
    ( "skyplate", .FLYING),
    ( "poisonbarb", .POISON),
    ( "toxicplate", .POISON),
    ( "softsand", .GROUND),
    ( "earthplate", .GROUND),
    ( "hardstone", .ROCK),
    ( "stoneplate", .ROCK),
    ( "silverpowder", .BUG),
    ( "insectplate", .BUG),
    ( "spelltag", .GHOST),
    ( "spookyplate", .GHOST),
    ( "metalcoat", .STEEL),
    ( "ironplate", .STEEL),
    ( "charcoal", .FIRE),
    ( "flameplate", .FIRE),
    ( "mysticwater", .WATER),
    ( "splashplate", .WATER),
    ( "seaincense", .WATER),
    ( "waveincense", .WATER),
    ( "miracleseed", .GRASS),
    ( "meadowplate", .GRASS),
    ( "roseincense", .GRASS),
    ( "magnet", .ELECTRIC),
    ( "zapplate", .ELECTRIC),
    ( "twistedspoon", .PSYCHIC),
    ( "mindplate", .PSYCHIC),
    ( "oddincense", .PSYCHIC),
    ( "nevermeltice", .ICE),
    ( "icicleplate", .ICE),
    ( "dragonfang", .DRAGON),
    ( "dracoplate", .DRAGON),
    ( "blackglasses", .DARK),
    ( "dreadplate", .DARK),
    ( "fairyfeather", .FAIRY),
    ( "pixieplate", .FAIRY),
    ( "adamantorb", .DRAGON),
    ( "lustrousorb", .DRAGON),
    ( "griseousorb", .DRAGON),
    ( "souldew", .DRAGON)]

/-- LEGENDARY_ORB_SECONDARY (lines 325-330). -/
def LEGENDARY_ORB_SECONDARY : List (String × PType) :=
  [ ( "adamantorb", .STEEL),
    ( "lustrousorb", .WATER),
    ( "griseousorb", .GHOST),
    ( "souldew", .PSYCHIC)]

/-- AttackAbilityParams: the fields of an ATTACK_ABILITIES record read by
`_get_ability_multipliers` through `get_attack_ability_params`
(`params.get("mult", 1.0)` and `params.get("type")` for a single type).
All other dict fields are never read through the params lookup. -/
structure AttackAbilityParams where
  mult : ℚ
  ptype : Option PType
deriving DecidableEq, Repr

/-- ATTACK_ABILITIES (items_and_abilities.py lines 354-426); keys are
transcribed exactly, including the source's "gorilltatactics" typo and the
capital B of "flareBoost". -/
def ATTACK_ABILITIES : List (String × AttackAbilityParams) :=
  [ ( "adaptability", ⟨1, none⟩),
    ( "protean", ⟨1, none⟩),
    ( "libero", ⟨1, none⟩),
    ( "steelworker", ⟨3/2, some .STEEL⟩),
    ( "transistor", ⟨3/2, some .ELECTRIC⟩),
    ( "dragonsmaw", ⟨3/2, some .DRAGON⟩),
    ( "rockypayload", ⟨3/2, some .ROCK⟩),
    ( "hadronengine", ⟨1333/1000, some .ELECTRIC⟩),
    ( "orichalcumpulse", ⟨1333/1000, some .FIRE⟩),
    ( "hustle", ⟨3/2, none⟩),
    ( "gorilltatactics", ⟨3/2, none⟩),
    ( "blaze", ⟨3/2, some .FIRE⟩),
    ( "torrent", ⟨3/2, some .WATER⟩),
    ( "overgrow", ⟨3/2, some .GRASS⟩),
    ( "swarm", ⟨3/2, some .BUG⟩),
    ( "guts", ⟨3/2, none⟩),
    ( "marvelscale", ⟨1, none⟩),
    ( "quickfeet", ⟨1, none⟩),
    ( "flareBoost", ⟨3/2, none⟩),
    ( "toxicboost", ⟨3/2, none⟩),
    ( "technician", ⟨3/2, none⟩),
    ( "sheerforce", ⟨13/10, none⟩),
    ( "reckless", ⟨6/5, none⟩),
    ( "ironfist", ⟨6/5, none⟩),
    ( "strongjaw", ⟨3/2, none⟩),
    ( "megalauncher", ⟨3/2, none⟩),
    ( "toughclaws", ⟨13/10, none⟩),
    ( "punkrock", ⟨13/10, none⟩),
    ( "sandforce", ⟨13/10, none⟩),
    ( "analytic", ⟨13/10, none⟩),
    ( "tintedlens", ⟨2, none⟩),
    ( "aerilate", ⟨6/5, none⟩),
    ( "pixilate", ⟨6/5, none⟩),
    ( "refrigerate", ⟨6/5, none⟩),
    ( "galvanize", ⟨6/5, none⟩),
    ( "liquidvoice", ⟨1, none⟩),
    ( "normalize", ⟨1, none⟩),
    ( "electricsurge", ⟨1, none⟩),
    ( "psychicsurge", ⟨1, none⟩),
    ( "neuroforce", ⟨5/4, none⟩),
    ( "sniper", ⟨3/2, none⟩),
    ( "supremeoverlord", ⟨11/10, none⟩),
    ( "powerspot", ⟨13/10, none⟩),
    ( "steelyspirit", ⟨3/2, some .STEEL⟩),
    ( "solarpower", ⟨3/2, none⟩),
    ( "sandstorm", ⟨1, none⟩),
    ( "snowwarning", ⟨1, none⟩),
    ( "deathmask", ⟨13/10, none⟩),
    ( "stench", ⟨1, none⟩)]

/-- DefenseAbilityParams: the fields of a DEFENSE_ABILITIES record read by
`_get_ability_multipliers`: `immuneT` is `params.get("immune")` when that
value is a PokemonType (string-valued immunities fail Python's isinstance
test and behave as none); `typeSet` / `typeSingle` split `params.get("type")`
by whether the dict stores a set or a single type; `divisor` is
`params.get("divisor")` with the call-site default applied at each use. -/
structure DefenseAbilityParams where
  immuneT : Option PType
  typeSet : List PType
  typeSingle : Option PType
  divisor : Option ℚ
deriving DecidableEq, Repr

/-- DEFENSE_ABILITIES (items_and_abilities.py lines 441-504). -/
def DEFENSE_ABILITIES : List (String × DefenseAbilityParams) :=
  [ ( "levitate", ⟨some .GROUND, [], none, none⟩),
    ( "flashfire", ⟨some .FIRE, [], none, none⟩),
    ( "waterabsorb", ⟨some .WATER, [], none, none⟩),
    ( "dryskin", ⟨some .WATER, [], some .FIRE, none⟩),
    ( "stormdrain", ⟨some .WATER, [], none, none⟩),
    ( "voltabsorb", ⟨some .ELECTRIC, [], none, none⟩),
    ( "motordrive", ⟨some .ELECTRIC, [], none, none⟩),
    ( "lightningrod", ⟨some .ELECTRIC, [], none, none⟩),
    ( "sapsipper", ⟨some .GRASS, [], none, none⟩),
    ( "eartheater", ⟨some .GROUND, [], none, none⟩),
    ( "windrider", ⟨some .FLYING, [], none, none⟩),
    ( "wellbakedbody", ⟨some .FIRE, [], none, none⟩),
    ( "steamengine", ⟨some .WATER, [], none, none⟩),
    ( "bulletproof", ⟨none, [], none, none⟩),
    ( "soundproof", ⟨none, [], none, none⟩),
    ( "telepathy", ⟨none, [], none, none⟩),
    ( "suctioncups", ⟨none, [], none, none⟩),
    ( "overcoat", ⟨none, [], none, none⟩),
    ( "magicguard", ⟨none, [], none, none⟩),
    ( "wonderguard", ⟨none, [], none, none⟩),
    ( "thickfat", ⟨none, [.FIRE, .ICE], none, some 2⟩),
    ( "heatproof", ⟨none, [], some .FIRE, some 2⟩),
    ( "purifyingsalt", ⟨none, [], some .GHOST, some 2⟩),
    ( "icescales", ⟨none, [], none, some 2⟩),
    ( "multiscale", ⟨none, [], none, some 2⟩),
    ( "shadowshield", ⟨none, [], none, some 2⟩),
    ( "filter", ⟨none, [], none, some (1333/1000)⟩),
    ( "solidrock", ⟨none, [], none, some (1333/1000)⟩),
    ( "prismarmor", ⟨none, [], none, some (1333/1000)⟩),
    ( "fluffy", ⟨none, [], none, some 2⟩),
    ( "punkrock", ⟨none, [], none, some 2⟩),
    ( "fairyaura", ⟨none, [], none, none⟩),
    ( "darkaura", ⟨none, [], none, none⟩),
    ( "aurabreak", ⟨none, [], none, none⟩),
    ( "furcoat", ⟨none, [], none, some 2⟩),
    ( "marvelscale", ⟨none, [], none, some (3/2)⟩),
    ( "grasspelt", ⟨none, [], none, some (3/2)⟩),
    ( "dazzling", ⟨none, [], none, none⟩),
    ( "queenlymajesty", ⟨none, [], none, none⟩),
    ( "armortail", ⟨none, [], none, none⟩),
    ( "goodasgold", ⟨none, [], none, none⟩),
    ( "guarddog", ⟨none, [], none, none⟩),
    ( "roughskin", ⟨none, [], none, none⟩),
    ( "ironbarbs", ⟨none, [], none, none⟩),
    ( "rockyhelmet", ⟨none, [], none, none⟩),
    ( "cottondown", ⟨none, [], none, none⟩),
    ( "perishbody", ⟨none, [], none, none⟩),
    ( "wanderingspirit", ⟨none, [], none, none⟩),
    ( "gooey", ⟨none, [], none, none⟩),
    ( "tanglinghair", ⟨none, [], none, none⟩)]

/-- SPEED_ABILITIES (lines 512-528): (mult, condition) per ability, with
`condition = ""` materializing a missing condition key. -/
def SPEED_ABILITIES : List (String × (ℚ × String)) :=
  [ ( "swiftswim", (2, "rain")),
    ( "chlorophyll", (2, "sun")),
    ( "sandrush", (2, "sandstorm")),
    ( "slushrush", (2, "hail_or_snow")),
    ( "surgesurfer", (2, "electric_terrain")),
    ( "speedboost", (1, "per_turn")),
    ( "unburden", (2, "item_lost")),
    ( "quickfeet", (3/2, "status")),
    ( "slowstart", (1/2, "first_5_turns")),
    ( "stall", (1/2, "")),
    ( "truant", (1, "")),
    ( "prankster", (1, "")),
    ( "triage", (1, "")),
    ( "galewings", (1, "")),
    ( "queenofwings", (1, ""))]

/-- get_attack_item_mult (items_and_abilities.py lines 572-619): damage
multiplier from the attacker's item, combining ATTACK_ITEMS and
TYPE_BOOST_ITEMS (with the legendary-orb secondary type). -/
def get_attack_item_mult (itemName : Option String) (isPhysical : Bool)
    (moveType : Option PType) (effectiveness : ℚ) : ℚ :=
  match itemName with
  | none => 1
  | some name =>
    let mult1 : ℚ :=
      match ATTACK_ITEMS.lookup name with
      | none => 1
      | some entry =>
        let im := entry.mult
        let im := if entry.category = some MoveCategory.physical ∧ ¬ isPhysical then 1
                  else if entry.category = some MoveCategory.special ∧ isPhysical then 1
                  else im
        if entry.supereffectiveOnly ∧ effectiveness < 2 then 1 else im
    let mult2 : ℚ :=
      match moveType with
      | none => 1
      | some mt =>
        match TYPE_BOOST_ITEMS.lookup name with
        | none => 1
        | some bt =>
          let m1 : ℚ := if bt = mt then 6/5 else 1
          let m2 : ℚ :=
            match LEGENDARY_ORB_SECONDARY.lookup name with
            | some st => if st = mt then 6/5 else 1
            | none => 1
          m1 * m2
    mult1 * mult2

/-- get_defense_item_divisor (lines 622-664): divisor from the defender's
item (divisor > 1 reduces damage). -/
def get_defense_item_divisor (itemName : Option String) (isPhysical : Bool)
    (moveType : Option PType) : ℚ :=
  match itemName with
  | none => 1
  | some name =>
    match DEFENSE_ITEMS.lookup name with
    | none => 1
    | some e =>
      if e.consumedNote && (match e.itype with
          | some it => moveType != some it
          | none => false) then 1
      else if e.category = some MoveCategory.physical ∧ ¬ isPhysical then 1
      else if e.category = some MoveCategory.special ∧ isPhysical then 1
      else match e.itype with
        | some it => if moveType ≠ some it then 1 else e.divisor
        | none => e.divisor

/-- get_speed_item_mult (lines 667-676). -/
def get_speed_item_mult (itemName : Option String) : ℚ :=
  match itemName with
  | none => 1
  | some name =>
    match SPEED_ITEMS.lookup name with
    | some m => m
    | none => 1

/-- get_speed_ability_mult (lines 679-731): speed multiplier of an ability,
applied only when its condition holds. -/
def get_speed_ability_mult (abilityName : Option String)
    (weather : List WeatherC) (field : List TerrainC)
    (hasStatus : Bool) (itemLost : Bool) : ℚ :=
  match abilityName with
  | none => 1
  | some ab =>
    match SPEED_ABILITIES.lookup ab with
    | none => 1
    | some (mult, condition) =>
      if condition = "rain" then
        if weather.contains .raindance || weather.contains .primordialsea then mult else 1
      else if condition = "sun" then
        if weather.contains .sunnyday || weather.contains .desolateland then mult else 1
      else if condition = "sandstorm" then
        if weather.contains .sandstorm then mult else 1
      else if condition = "hail_or_snow" then
        if weather.contains .hail || weather.contains .snow then mult else 1
      else if condition = "electric_terrain" then
        if field.contains .electricTerrain then mult else 1
      else if condition = "status" then
        if hasStatus then mult else 1
      else if condition = "item_lost" then
        if itemLost then mult else 1
      else if condition = "first_5_turns" then mult
      else 1

/-- get_attack_ability_params (lines 734-739): registry lookup; Python
returns the empty dict for a missing key, modeled as `none`. -/
def get_attack_ability_params (abilityName : String) : Option AttackAbilityParams :=
  ATTACK_ABILITIES.lookup abilityName

/-- get_defense_ability_params (lines 742-747). -/
def get_defense_ability_params (abilityName : String) : Option DefenseAbilityParams :=
  DEFENSE_ABILITIES.lookup abilityName

/-- lowerStr: character-wise lowercase, modelling Python `str.lower()` on
the ASCII identifiers used for move ids. -/
def lowerStr (s : String) : String :=
  ⟨s.data.map Char.toLower⟩

/-- get_weather_key: `_get_weather_key` (encoder.py lines 209-213), the
first key of the battle weather dict or None. -/
def get_weather_key (battle : Option BattleS) : Option WeatherC :=
  match battle with
  | none => none
  | some b => b.weather.head?

/-- get_weather_multiplier: `_get_weather_multiplier` (lines 216-233). -/
def get_weather_multiplier (moveType : PType) (battle : Option BattleS) : ℚ :=
  match get_weather_key battle with
  | none => 1
  | some w =>
    if w = .sunnyday ∨ w = .desolateland then
      if moveType = .FIRE then 3/2
      else if moveType = .WATER then 1/2
      else 1
    else if w = .raindance ∨ w = .primordialsea then
      if moveType = .WATER then 3/2
      else if moveType = .FIRE then 1/2
      else 1
    else 1

/-- get_terrain_multiplier: `_get_terrain_multiplier` (lines 236-250). -/
def get_terrain_multiplier (moveType : PType) (battle : Option BattleS) : ℚ :=
  match battle with
  | none => 1
  | some b =>
    if b.fields.isEmpty then 1
    else if b.fields.contains .electricTerrain ∧ moveType = .ELECTRIC then 13/10
    else if b.fields.contains .grassyTerrain ∧ moveType = .GRASS then 13/10
    else if b.fields.contains .mistyTerrain ∧ moveType = .DRAGON then 1/2
    else if b.fields.contains .psychicTerrain ∧ moveType = .PSYCHIC then 13/10
    else 1

/-- side_has: membership of a side condition in a side-condition dict. -/
def side_has (sides : List (SideCond × ℕ)) (c : SideCond) : Bool :=
  sides.any (fun p => p.1 == c)

/-- side_get: `sides.get(cond, 0)` on a side-condition dict. -/
def side_get (sides : List (SideCond × ℕ)) (c : SideCond) : ℕ :=
  match sides.lookup c with
  | some n => n
  | none => 0

/-- get_screen_divisor: `_get_screen_divisor` (lines 253-266): screens on
the defending side divide damage by 2. -/
def get_screen_divisor (battle : Option BattleS) (isPhysical : Bool)
    (isOwnAttack : Bool) : ℚ :=
  match battle with
  | none => 1
  | some b =>
    let sides := if isOwnAttack then b.oppSideConditions else b.sideConditions
    if side_has sides .auroraveil then 2
    else if isPhysical ∧ side_has sides .reflect then 2
    else if ¬isPhysical ∧ side_has sides .lightscreen then 2
    else 1

/-- get_ability_multipliers: `_get_ability_multipliers` (encoder.py lines
273-501), returning (attacker damage multiplier, defender damage divisor,
STAB override, defender immunity).  The if/elif chains are transcribed in
source order; the `grasspelt` branch is a no-op because poke-env Pokemon
objects have no `_battle` attribute, so the Python hasattr test is False. -/
def get_ability_multipliers (attacker defender : PokemonS) (move : Option MoveS) :
    ℚ × ℚ × Option ℚ × Bool :=
  let atkAbility := cleanOpt attacker.ability
  let defAbility := cleanOpt defender.ability
  let moveType : Option PType := move.map (fun m => m.mtype)
  let isPhysical : Bool := match move with
    | some m => m.category == MoveCategory.physical
    | none => true
  let basePower : ℕ := match move with
    | some m => m.basePower
    | none => 0
  let moveName : String := match move with
    | some m => lowerStr m.id
    | none => ""
  let effectiveness : ℚ := match moveType with
    | some t => type_effectiveness t defender.types
    | none => 1
  let isSupereff := effectiveness ≥ 2
  let atkPair : ℚ × Option ℚ :=
    match atkAbility with
    | none => (1, none)
    | some ab =>
      if ab = "" then (1, none)
      else if ab = "adaptability" then (1, some 2)
      else if ab = "protean" ∨ ab = "libero" then (1, some (3/2))
      else if ab = "steelworker" ∨ ab = "transistor" ∨ ab = "dragonsmaw" ∨
          ab = "rockypayload" then
        let params := get_attack_ability_params ab
        let pType : Option PType := match params with
          | some p => p.ptype
          | none => none
        let pMult : ℚ := match params with
          | some p => p.mult
          | none => 1
        if moveType = pType then (pMult, none) else (1, none)
      else if ab = "hadronengine" then
        (if moveType = some PType.ELECTRIC then 1333/1000 else 1, none)
      else if ab = "orichalcumpulse" then
        (if moveType = some PType.FIRE then 1333/1000 else 1, none)
      else if ab = "hustle" ∧ isPhysical then (3/2, none)
      else if ab = "gorillatactics" ∧ isPhysical then (3/2, none)
      else if ab = "guts" ∧ isPhysical then
        (if attacker.status ≠ none then 3/2 else 1, none)
      else if ab = "flareboost" ∧ ¬isPhysical then
        (if attacker.status = some .brn then 3/2 else 1, none)
      else if ab = "toxicboost" ∧ isPhysical then
        (if attacker.status = some .psn ∨ attacker.status = some .tox then 3/2 else 1, none)
      else if ab = "blaze" ∧ moveType = some PType.FIRE then
        (if attacker.curHpFraction < 33/100 then 3/2 else 1, none)
      else if ab = "torrent" ∧ moveType = some PType.WATER then
        (if attacker.curHpFraction < 33/100 then 3/2 else 1, none)
      else if ab = "overgrow" ∧ moveType = some PType.GRASS then
        (if attacker.curHpFraction < 33/100 then 3/2 else 1, none)
      else if ab = "swarm" ∧ moveType = some PType.BUG then
        (if attacker.curHpFraction < 33/100 then 3/2 else 1, none)
      else if ab = "technician" then
        (if 0 < basePower ∧ basePower ≤ 60 then 3/2 else 1, none)
      else if ab = "sheerforce" then
        (if 0 < basePower then 13/10 else 1, none)
      else if ab = "reckless" then
        (if RECOIL_MOVES.contains moveName then 6/5 else 1, none)
      else if ab = "ironfist" then
        (if PUNCH_MOVES.contains moveName then 6/5 else 1, none)
      else if ab = "strongjaw" then
        (if BITE_MOVES.contains moveName then 3/2 else 1, none)
      else if ab = "megalauncher" then
        (if PULSE_MOVES.contains moveName then 3/2 else 1, none)
      else if ab = "toughclaws" then
        (if CONTACT_MOVES.contains moveName then 13/10 else 1, none)
      else if ab = "punkrock" then
        (if SOUND_MOVES.contains moveName then 13/10 else 1, none)
      else if ab = "sandforce" ∧ isPhysical then
        (if moveType = some PType.ROCK ∨ moveType = some PType.STEEL ∨
            moveType = some PType.GROUND then 13/10 else 1, none)
      else if ab = "analytic" then
        (if stat_at_100 (defender.baseStats.spe.getD 50) false >
            stat_at_100 (attacker.baseStats.spe.getD 50) false then 13/10 else 1, none)
      else if ab = "tintedlens" then
        (if effectiveness < 1 then
          (if effectiveness > 0 then 1 / effectiveness else 1) else 1, none)
      else if ab = "neuroforce" ∧ isSupereff then (5/4, none)
      else if ab = "aerilate" ∨ ab = "pixilate" ∨ ab = "refrigerate" ∨
          ab = "galvanize" then
        (if moveType = some PType.NORMAL then 6/5 else 1, none)
      else if ab = "solarpower" ∧ ¬isPhysical then (3/2, none)
      else if ab = "punchingglove" ∧ PUNCH_MOVES.contains moveName ∧ isPhysical then
        (11/10, none)
      else if ab = "supremeoverlord" then (1, none)
      else (1, none)
  let defPair : ℚ × Bool :=
    match defAbility, moveType with
    | some ab, some mt =>
      if ab = "" then (1, false)
      else
        let params := get_defense_ability_params ab
        let immuneVal : Option PType := match params with
          | some p => p.immuneT
          | none => none
        let pDivisor : Option ℚ := match params with
          | some p => p.divisor
          | none => none
        let pTypeSet : List PType := match params with
          | some p => p.typeSet
          | none => []
        let pTypeSingle : Option PType := match params with
          | some p => p.typeSingle
          | none => none
        if immuneVal = some mt then (1, true)
        else if ab = "dryskin" ∧ mt = PType.WATER then (1, true)
        else if ab = "wonderguard" ∧ ¬isSupereff then (1, true)
        else if ab = "bulletproof" ∧ BALL_BOMB_MOVES.contains moveName then (1, true)
        else if ab = "soundproof" ∧ SOUND_MOVES.contains moveName then (1, true)
        else if ab = "thickfat" then
          (if pTypeSet.contains mt then pDivisor.getD 1 else 1, false)
        else if ab = "heatproof" ∨ ab = "purifyingsalt" then
          (if pTypeSingle = some mt then pDivisor.getD 1 else 1, false)
        else if ab = "icescales" ∧ ¬isPhysical then (pDivisor.getD 2, false)
        else if ab = "multiscale" ∨ ab = "shadowshield" then
          (if defender.curHpFraction ≥ 99/100 then pDivisor.getD 2 else 1, false)
        else if (ab = "filter" ∨ ab = "solidrock" ∨ ab = "prismarmor") ∧ isSupereff then
          (pDivisor.getD (1333/1000), false)
        else if ab = "fluffy" then
          (if mt = PType.FIRE then 1/2
           else if isPhysical ∧ CONTACT_MOVES.contains moveName then pDivisor.getD 2
           else 1, false)
        else if ab = "furcoat" ∧ isPhysical then (pDivisor.getD 2, false)
        else if ab = "marvelscale" ∧ isPhysical then
          (if defender.status ≠ none then pDivisor.getD (3/2) else 1, false)
        else if ab = "grasspelt" ∧ isPhysical then (1, false)
        else if ab = "punkrock" ∧ SOUND_MOVES.contains moveName then
          (pDivisor.getD 2, false)
        else if ab = "dryskin" ∧ mt = PType.FIRE then (4/5, false)
        else (1, false)
    | _, _ => (1, false)
  (atkPair.1, defPair.1, atkPair.2, defPair.2)

/-- estimate_damage: `_estimate_damage` (encoder.py lines 508-628), the
Gen 6+ damage formula at level 100, normalized to the fraction of the
defender's approximate maximum HP and clipped to [0, 1]. -/
def estimate_damage (move : Option MoveS) (attacker defender : PokemonS)
    (battle : Option BattleS) (isOwnAttack : Bool) (randomRoll : ℚ) : ℚ :=
  match move with
  | none => 0
  | some mv =>
    if mv.basePower = 0 then 0
    else
      let isPhysical : Bool := mv.category == MoveCategory.physical
      let moveType := mv.mtype
      let mults := get_ability_multipliers attacker defender (some mv)
      let atkAbilityMult := mults.1
      let defAbilityMult := mults.2.1
      let stabOverride := mults.2.2.1
      let immune := mults.2.2.2
      if immune then 0
      else
        let atkBase := if isPhysical then attacker.baseStats.atk.getD 50
                       else attacker.baseStats.spa.getD 50
        let atkBoost := boost_multiplier
          (if isPhysical then attacker.boosts.atk.getD 0 else attacker.boosts.spa.getD 0)
        let atkReal := stat_at_100 atkBase false * atkBoost
        let defBase := if isPhysical then defender.baseStats.dfn.getD 50
                       else defender.baseStats.spd.getD 50
        let defBoost := boost_multiplier
          (if isPhysical then defender.boosts.dfn.getD 0 else defender.boosts.spd.getD 0)
        let defReal := stat_at_100 defBase false * defBoost
        let effectiveness := type_effectiveness moveType defender.types
        if effectiveness = 0 then 0
        else
          let attackerTypes := attacker.types
          let stab : ℚ :=
            match stabOverride with
            | some ov =>
              if ov = 3/2 ∨ attackerTypes.contains (some moveType) then ov else 1
            | none => if attackerTypes.contains (some moveType) then 3/2 else 1
          let atkItem := cleanOpt attacker.item
          let itemAtkMult := get_attack_item_mult atkItem isPhysical (some moveType) effectiveness
          let defItem := cleanOpt defender.item
          let itemDefDiv := get_defense_item_divisor defItem isPhysical (some moveType)
          let weatherMult := get_weather_multiplier moveType battle
          let terrainMult := get_terrain_multiplier moveType battle
          let screenDiv := get_screen_divisor battle isPhysical isOwnAttack
          let gutsActive := cleanOpt attacker.ability = some ( "guts")
          let burnMult : ℚ :=
            if isPhysical ∧ attacker.status = some .brn ∧ ¬gutsActive then 1/2 else 1
          let power : ℚ := (mv.basePower : ℚ)
          let base := baseDamage power atkReal defReal
          let damage := (base : ℚ) * weatherMult * randomRoll * stab * effectiveness
              * burnMult * itemAtkMult * atkAbilityMult * terrainMult
              / defAbilityMult / itemDefDiv / screenDiv
          let defHpApprox := stat_at_100 (defender.baseStats.hp.getD 50) true
          min (max (damage / defHpApprox) 0) 1

/-- fallback_damage: the else-branch of `_best_damage_vs` (encoder.py lines
659-677): with no known moves, assume a base-power-80 STAB attack from the
best offensive stat into the weaker relevant defensive stat, iterated over
the attacker's types, taking the maximum. -/
def fallback_damage (attacker defender : PokemonS) (roll : ℚ) : ℚ :=
  let atkBase := max (attacker.baseStats.atk.getD 80) (attacker.baseStats.spa.getD 80)
  let defBase := min (defender.baseStats.dfn.getD 80) (defender.baseStats.spd.getD 80)
  let atkReal := stat_at_100 atkBase false
  let defReal := stat_at_100 defBase false
  let defHp := stat_at_100 (defender.baseStats.hp.getD 80) true
  attacker.types.foldl
    (fun best t =>
      match t with
      | none => best
      | some tt =>
        let eff := type_effectiveness tt defender.types
        if eff = 0 then best
        else
          let baseDmg := baseDamage 80 atkReal defReal
          let dmg := (baseDmg : ℚ) * roll * (3/2) * eff
          max best (min (dmg / defHp) 1)) 0

/-- best_damage_vs: `_best_damage_vs` (encoder.py lines 635-678): the best
damage over the attacker's known damaging moves, or `fallback_damage` when
the attacker has no known moves at all. -/
def best_damage_vs (attacker defender : PokemonS) (battle : Option BattleS)
    (isOwnAttack : Bool) (roll : ℚ) : ℚ :=
  let moves := attacker.moves
  if moves.isEmpty then fallback_damage attacker defender roll
  else
    moves.foldl
      (fun best mv =>
        if 0 < mv.basePower then
          max best (estimate_damage (some mv) attacker defender battle isOwnAttack roll)
        else best) 0

/-- ko_probability: `_ko_probability` (encoder.py lines 681-704), the
two-point interpolation between minimum-roll and maximum-roll damage. -/
def ko_probability (attacker defender : PokemonS) (battle : Option BattleS)
    (isOwnAttack : Bool) : ℚ :=
  let dmgMin := best_damage_vs attacker defender battle isOwnAttack (17/20)
  let dmgMax := best_damage_vs attacker defender battle isOwnAttack 1
  let hpCurr := defender.curHpFraction
  if dmgMin ≥ hpCurr then 1
  else if dmgMax < hpCurr then 0
  else
    let damageRange := dmgMax - dmgMin
    if damageRange < 1/100000000 then 0
    else min (max ((dmgMax - hpCurr) / damageRange) 0) 1

/-- real_speed: `_real_speed` (encoder.py lines 711-750). -/
def real_speed (pokemon : PokemonS) (battle : Option BattleS) : ℚ :=
  let speBase := pokemon.baseStats.spe.getD 50
  let speBoost := boost_multiplier (pokemon.boosts.spe.getD 0)
  let spe1 := stat_at_100 speBase false * speBoost
  let ability := cleanOpt pokemon.ability
  let spe2 :=
    if pokemon.status = some .par ∧ ability ≠ some ( "quickfeet") then spe1 * (1/2)
    else spe1
  let item := cleanOpt pokemon.item
  let spe3 := spe2 * get_speed_item_mult item
  match ability with
  | some ab =>
    if ab ≠ "" then
      let weatherSet := match battle with
        | some b => b.weather
        | none => []
      let fieldSet := match battle with
        | some b => b.fields
        | none => []
      spe3 * get_speed_ability_mult (some ab) weatherSet fieldSet
        (pokemon.status ≠ none) false
    else spe3
  | none => spe3

/-- TYPES: the encoder's fixed type ordering (encoder.py lines 87-93). -/
def TYPES : List PType :=
  [.NORMAL, .FIRE, .WATER, .ELECTRIC, .GRASS, .ICE, .FIGHTING, .POISON,
   .GROUND, .FLYING, .PSYCHIC, .BUG, .ROCK, .GHOST, .DRAGON, .DARK,
   .STEEL, .FAIRY]

/-- WEATHERS: the encoder's weather ordering (lines 96-99). -/
def WEATHERS : List WeatherC :=
  [.sunnyday, .raindance, .sandstorm, .hail, .snow,
   .desolateland, .primordialsea, .deltastream]

/-- FIELDS: the encoder's terrain ordering (lines 102-105). -/
def FIELDS : List TerrainC :=
  [.electricTerrain, .grassyTerrain, .mistyTerrain, .psychicTerrain]

/-- STATUSES: the encoder's status ordering (lines 108-111). -/
def STATUSES : List StatusCond :=
  [.brn, .frz, .par, .psn, .tox, .slp]

/-- N_MOVES (line 117). -/
def N_MOVES : ℕ := 4

/-- EFFECTIVENESS_BUCKETS (line 121). -/
def EFFECTIVENESS_BUCKETS : List ℚ :=
  [0, 1/4, 1/2, 1, 2, 4]

/-- typeIndex: Python `TYPES.index(t)`. -/
def typeIndex (t : PType) : ℕ := TYPES.findIdx (fun x => x == t)

/-- statusIndex: Python `STATUSES.index(s)`. -/
def statusIndex (s : StatusCond) : ℕ := STATUSES.findIdx (fun x => x == s)

/-- weatherIndex: Python `WEATHERS.index(w)`. -/
def weatherIndex (w : WeatherC) : ℕ := WEATHERS.findIdx (fun x => x == w)

/-- fieldIndex: Python `FIELDS.index(f)`. -/
def fieldIndex (f : TerrainC) : ℕ := FIELDS.findIdx (fun x => x == f)

/-- encode_types: `_encode_types` (encoder.py lines 882-887), an 18-slot
one-hot (possibly two-hot) vector over the Pokemon's types. -/
def encode_types (pokemon : PokemonS) : List ℚ :=
  pokemon.types.foldl
    (fun v t =>
      match t with
      | some tt => if TYPES.contains tt then v.set (typeIndex tt) 1 else v
      | none => v)
    (List.replicate 18 0)

/-- encode_status: `_encode_status` (lines 890-896): 6 status slots plus a
final no-status slot. -/
def encode_status (pokemon : PokemonS) : List ℚ :=
  let vec := List.replicate 7 (0 : ℚ)
  match pokemon.status with
  | none => vec.set 6 1
  | some s => if STATUSES.contains s then vec.set (statusIndex s) 1 else vec

/-- encode_boosts: `_encode_boosts` (lines 899-903): the seven boost stages
normalized by 6. -/
def encode_boosts (pokemon : PokemonS) : List ℚ :=
  [((pokemon.boosts.atk.getD 0 : ℤ) : ℚ) / 6,
   ((pokemon.boosts.dfn.getD 0 : ℤ) : ℚ) / 6,
   ((pokemon.boosts.spa.getD 0 : ℤ) : ℚ) / 6,
   ((pokemon.boosts.spd.getD 0 : ℤ) : ℚ) / 6,
   ((pokemon.boosts.spe.getD 0 : ℤ) : ℚ) / 6,
   ((pokemon.boosts.accuracy.getD 0 : ℤ) : ℚ) / 6,
   ((pokemon.boosts.evasion.getD 0 : ℤ) : ℚ) / 6]

/-- encode_move: `_encode_move` (lines 906-923): type(18) + category(3) +
power(1) + accuracy(1) + PP(1) + STAB(1) = 25 slots. -/
def encode_move (move : Option MoveS) (pokemon : PokemonS) : List ℚ :=
  match move with
  | none => List.replicate 25 0
  | some m =>
    let vec := List.replicate 25 (0 : ℚ)
    let vec := if TYPES.contains m.mtype then vec.set (typeIndex m.mtype) 1 else vec
    let catIdx : ℕ := match m.category with
      | .physical => 0
      | .special => 1
      | .status => 2
    let vec := vec.set (18 + catIdx) 1
    let vec := vec.set 21 (min ((m.basePower : ℚ) / 250) 1)
    let accVal : ℚ := match m.accuracy with
      | none => 1
      | some a => if a ≠ 0 then a / 100 else 0
    let vec := vec.set 22 accVal
    let ppVal : ℚ := match m.currentPP with
      | some c => if m.maxPP ≠ 0 then (c : ℚ) / (m.maxPP : ℚ) else 1
      | none => 1
    let vec := vec.set 23 ppVal
    vec.set 24 (if pokemon.types.contains (some m.mtype) then 1 else 0)

/-- active_pokemon_size: `_active_pokemon_size` (lines 1104-1105). -/
def active_pokemon_size : ℕ := 1 + 18 + 7 + 7 + 5 + (N_MOVES * 25)

/-- combat_analysis_size: `_combat_analysis_size` (lines 1108-1109). -/
def combat_analysis_size : ℕ := N_MOVES * 8 + 4

/-- switch_analysis_size: `_switch_analysis_size` (lines 1112-1113). -/
def switch_analysis_size : ℕ := 5 * 6

/-- encode_active_pokemon: `_encode_active_pokemon` (lines 926-947):
HP(1) + types(18) + status(7) + boosts(7) + stats(5) + moves(100) = 138;
the opponent variant zero-fills the stat and move blocks. -/
def encode_active_pokemon (pokemon : PokemonS) (isOwn : Bool) : List ℚ :=
  let head := [pokemon.curHpFraction] ++ encode_types pokemon ++
    encode_status pokemon ++ encode_boosts pokemon
  if isOwn then
    let stats := pokemon.baseStats
    let statVec : List ℚ :=
      [((stats.atk.getD 0 : ℕ) : ℚ) / 255,
       ((stats.dfn.getD 0 : ℕ) : ℚ) / 255,
       ((stats.spa.getD 0 : ℕ) : ℚ) / 255,
       ((stats.spd.getD 0 : ℕ) : ℚ) / 255,
       ((stats.spe.getD 0 : ℕ) : ℚ) / 255]
    let moves := pokemon.moves
    head ++ statVec ++
      ((List.range N_MOVES).map (fun i => encode_move (moves.get? i) pokemon)).flatten
  else
    head ++ List.replicate 5 0 ++ List.replicate (N_MOVES * 25) 0

/-- encode_reserve_pokemon: `_encode_reserve_pokemon` (lines 950-958):
HP(1) + types(18) + available(1) = 20; absent slots are all zero. -/
def encode_reserve_pokemon (pokemon : Option PokemonS) : List ℚ :=
  match pokemon with
  | none => List.replicate 20 0
  | some p =>
    [p.curHpFraction] ++ encode_types p ++ [if p.fainted then 0 else 1]

/-- encode_field: `_encode_field` (lines 961-1034): weather(9) + terrain(5)
+ own screens(3) + opponent screens(3) + own hazards(4) + opponent
hazards(4) = 28. -/
def encode_field (battle : BattleS) : List ℚ :=
  let wvec := List.replicate 9 (0 : ℚ)
  let wvec := match battle.weather.head? with
    | some wk => if WEATHERS.contains wk then wvec.set (weatherIndex wk) 1 else wvec.set 8 1
    | none => wvec.set 8 1
  let fvec := List.replicate 5 (0 : ℚ)
  let fvec := match battle.fields.find? (fun f => FIELDS.contains f) with
    | some f => fvec.set (fieldIndex f) 1
    | none => fvec.set 4 1
  let ownSides := battle.sideConditions
  let oppSides := battle.oppSideConditions
  let screensOwn : List ℚ :=
    [if side_has ownSides .reflect then 1 else 0,
     if side_has ownSides .lightscreen then 1 else 0,
     if side_has ownSides .auroraveil then 1 else 0]
  let screensOpp : List ℚ :=
    [if side_has oppSides .reflect then 1 else 0,
     if side_has oppSides .lightscreen then 1 else 0,
     if side_has oppSides .auroraveil then 1 else 0]
  let hazOwn : List ℚ :=
    [if side_has ownSides .stealthrock then 1 else 0,
     ((side_get ownSides .spikes : ℕ) : ℚ) / 3,
     ((side_get ownSides .toxicspikes : ℕ) : ℚ) / 2,
     if side_has ownSides .stickyweb then 1 else 0]
  let hazOpp : List ℚ :=
    [if side_has oppSides .stealthrock then 1 else 0,
     ((side_get oppSides .spikes : ℕ) : ℚ) / 3,
     ((side_get oppSides .toxicspikes : ℕ) : ℚ) / 2,
     if side_has oppSides .stickyweb then 1 else 0]
  wvec ++ fvec ++ screensOwn ++ screensOpp ++ hazOwn ++ hazOpp

/-- combat_move_vec: one 8-slot per-move block of `_encode_combat_analysis`
(encoder.py lines 837-857): effectiveness one-hot, damage estimate, and
status-move flag; an absent move slot stays all zero. -/
def combat_move_vec (own opp : PokemonS) (battle : BattleS) (i : ℕ) : List ℚ :=
  match own.moves.get? i with
  | none => List.replicate 8 0
  | some move =>
    let vec := List.replicate 8 (0 : ℚ)
    let eff := type_effectiveness move.mtype opp.types
    let bucketIdx : ℕ :=
      match EFFECTIVENESS_BUCKETS.findIdx? (fun bk => decide (|eff - bk| < 1/100)) with
      | some j => j
      | none => 3
    let vec := vec.set bucketIdx 1
    let dmg := estimate_damage (some move) own opp (some battle) true (37/40)
    let vec := vec.set 6 dmg
    vec.set 7 (if move.basePower = 0 then 1 else 0)

/-- encode_combat_analysis: `_encode_combat_analysis` (lines 820-875):
four 8-slot per-move blocks plus a 4-slot global block.  The Python
`best_damage` local is dead code (never read) and is not modeled. -/
def encode_combat_analysis (own opp : PokemonS) (battle : BattleS) : List ℚ :=
  let moves := own.moves
  let movesParts : List (List ℚ) :=
    (List.range N_MOVES).map (combat_move_vec own opp battle)
  let globalVec :=
    let g := List.replicate 4 (0 : ℚ)
    let ownSpe := real_speed own (some battle)
    let oppSpe := real_speed opp (some battle)
    let g := g.set 0 (if ownSpe > oppSpe then 1 else 0)
    let g := g.set 1 (ko_probability opp own (some battle) false)
    let g := g.set 2 (ko_probability own opp (some battle) true)
    let effs := (moves.filter (fun m => 0 < m.basePower)).map
      (fun m => type_effectiveness m.mtype opp.types)
    let avgEff : ℚ := if effs.isEmpty then 1 else effs.sum / (effs.length : ℚ)
    g.set 3 (min (avgEff / 4) 1)
  movesParts.flatten ++ globalVec

/-- encode_switch_analysis: `_encode_switch_analysis` (lines 757-813):
six features per reserve slot, with absent/fainted slots left all zero. -/
def encode_switch_analysis (reservePokemon : List (Option PokemonS))
    (oppActive : Option PokemonS) (battle : Option BattleS) : List ℚ :=
  let result := List.replicate 30 (0 : ℚ)
  match oppActive with
  | none => result
  | some opp =>
    let oppPrimaryType : Option PType := (opp.types.filterMap id).head?
    let oppSpe := real_speed opp battle
    (List.range 5).foldl
      (fun res i =>
        match reservePokemon.get? i with
        | none => res
        | some none => res
        | some (some poke) =>
          if poke.fainted then res
          else
            let offset := i * 6
            let res := res.set (offset + 0)
              (best_damage_vs poke opp battle true (37/40))
            let res :=
              match oppPrimaryType with
              | none => res
              | some opt =>
                let resistMult := poke.types.foldl
                  (fun m dt =>
                    match dt with
                    | some d => if TYPES.contains opt then m * TYPE_CHART opt d else m
                    | none => m) 1
                if resistMult = 0 then (res.set (offset + 2) 1).set (offset + 1) 1
                else if resistMult ≤ 1/2 then res.set (offset + 1) 1
                else res
            let pokeSpe := real_speed poke battle
            let res := res.set (offset + 3) (if pokeSpe > oppSpe then 1 else 0)
            let res := res.set (offset + 4) poke.curHpFraction
            let oppKoProb := ko_probability opp poke battle false
            res.set (offset + 5) (1 - oppKoProb))
      result

/-- eb_own_team: `own_team` of encode_battle (encoder.py line 1056), the
non-active own team members. -/
def eb_own_team (battle : BattleS) : List PokemonS :=
  battle.team.filter (fun p => !p.active)

/-- eb_opp_team: `opp_team` of encode_battle (line 1057). -/
def eb_opp_team (battle : BattleS) : List PokemonS :=
  battle.oppTeam.filter (fun p => !p.active)

/-- eb_own_active: section 1 of encode_battle (lines 1062-1065). -/
def eb_own_active (battle : BattleS) : List ℚ :=
  match battle.activePokemon with
  | some p => encode_active_pokemon p true
  | none => List.replicate active_pokemon_size 0

/-- eb_combat: section 2 of encode_battle (lines 1068-1071). -/
def eb_combat (battle : BattleS) : List ℚ :=
  match battle.activePokemon, battle.oppActivePokemon with
  | some ow, some op => encode_combat_analysis ow op battle
  | _, _ => List.replicate combat_analysis_size 0

/-- eb_switch: section 3 of encode_battle (lines 1074-1078), over the
5-slot reserve list `[own_team[i] if i < len(own_team) else None]`. -/
def eb_switch (battle : BattleS) : List ℚ :=
  match battle.oppActivePokemon with
  | some _ =>
    encode_switch_analysis ((List.range 5).map (fun i => (eb_own_team battle).get? i))
      battle.oppActivePokemon (some battle)
  | none => List.replicate switch_analysis_size 0

/-- eb_own_reserve: section 4 of encode_battle (lines 1081-1082). -/
def eb_own_reserve (battle : BattleS) : List ℚ :=
  ((List.range 5).map (fun i => encode_reserve_pokemon ((eb_own_team battle).get? i))).flatten

/-- eb_opp_active: section 5 of encode_battle (lines 1085-1087). -/
def eb_opp_active (battle : BattleS) : List ℚ :=
  match battle.oppActivePokemon with
  | some p => encode_active_pokemon p false
  | none => List.replicate active_pokemon_size 0

/-- eb_opp_reserve: section 6 of encode_battle (lines 1090-1092). -/
def eb_opp_reserve (battle : BattleS) : List ℚ :=
  ((List.range 5).map (fun i => encode_reserve_pokemon ((eb_opp_team battle).get? i))).flatten

/-- encode_battle: `encode_battle` (encoder.py lines 1041-1097), the full
570-dimensional observation vector, as the concatenation of its seven
sections. -/
def encode_battle (battle : BattleS) : List ℚ :=
  eb_own_active battle ++ eb_combat battle ++ eb_switch battle ++
    eb_own_reserve battle ++ eb_opp_active battle ++ eb_opp_reserve battle ++
    encode_field battle

/-- get_observation_size: `get_observation_size` (encoder.py lines
1116-1131). -/
def get_observation_size : ℕ :=
  let active := active_pokemon_size
  let combat := combat_analysis_size
  let switch := switch_analysis_size
  let reserve := 20
  let field := 9 + 5 + 3 + 3 + 4 + 4
  active + combat + switch + 5 * reserve + active + 5 * reserve + field

/-- ACTION_SPACE_SIZE (action_space.py line 23). -/
def ACTION_SPACE_SIZE : ℕ := 26

/-- forced_turn: the forced-turn test of `get_action_mask` (action_space.py
lines 39-40): the valid-order list is empty, or holds a single order whose
string form is the default order. -/
def forced_turn (validOrders : List String) : Bool :=
  validOrders.length == 0 ||
    (validOrders.length == 1 && validOrders.getD 0 ( "") == ( "/choose default"))

/-- switch_step: one iteration of the switch loop of `get_action_mask`
(action_space.py lines 55-59): mark slot i legal iff the Pokemon object at
absolute team position i is in battle.available_switches (identity
membership, modeled by `pid`). -/
def switch_step (availableSwitchIds : List ℕ) (team : List PokemonS)
    (acc : List Bool) (i : ℕ) : List Bool :=
  match team.get? i with
  | some pokemon =>
    if availableSwitchIds.contains pokemon.pid then acc.set i true else acc
  | none => acc

/-- switch_mask: the switch section of `get_action_mask` (action_space.py
lines 52-59); the Python `for i, pokemon in enumerate(team)` with its
`i >= 6` break is the loop over i < 6 reading team[i] when it exists. -/
def switch_mask (battle : BattleS) (m : List Bool) : List Bool :=
  let availableSwitchIds := battle.availableSwitches.map (fun p => p.pid)
  (List.range 6).foldl (switch_step availableSwitchIds battle.team) m

/-- set_if: conditionally mark one mask slot (a `mask[k] = True` guarded by
an if in the Python source). -/
def set_if (m : List Bool) (c : Bool) (k : ℕ) : List Bool :=
  if c then m.set k true else m

/-- move_step: one iteration of the move loop of `get_action_mask`
(action_space.py lines 78-102): mark 6+i for a usable move slot, and layer
the mega (10+i), z-move (14+i), dynamax (18+i) and terastallize (22+i)
sub-ranges on top. -/
def move_step (battle : BattleS) (active : PokemonS)
    (availableMoveIds zIds : List String) (acc : List Bool) (i : ℕ) : List Bool :=
  match active.moves.get? i with
  | none => acc
  | some move =>
    if availableMoveIds.contains move.id then
      set_if (set_if (set_if (set_if (acc.set (6 + i) true)
        battle.canMegaEvolve (10 + i))
        (battle.canZMove && zIds.contains move.id) (14 + i))
        battle.canDynamax (18 + i))
        battle.canTera (22 + i)
    else acc

/-- move_mask: the move section of `get_action_mask` (action_space.py lines
67-102): struggle/recharge forces action 6 alone; otherwise the move loop
runs over the active Pokemon's first four move slots. -/
def move_mask (battle : BattleS) (m : List Bool) : List Bool :=
  let struggleCase : Bool :=
    match battle.availableMoves with
    | [mv] => mv.id == ( "struggle") || mv.id == ( "recharge")
    | _ => false
  if struggleCase then m.set 6 true
  else
    match battle.activePokemon with
    | none => m
    | some active =>
      let availableMoveIds := battle.availableMoves.map (fun mv => mv.id)
      let zIds := battle.availableZMoves.map (fun mv => mv.id)
      (List.range 4).foldl (move_step battle active availableMoveIds zIds) m

/-- mask_after_rules: the mask state of `get_action_mask` after the switch
and move sections (action_space.py line 102, just before the final
fallback at lines 109-110). -/
def mask_after_rules (battle : BattleS) : List Bool :=
  move_mask battle (switch_mask battle (List.replicate 26 false))

/-- get_action_mask: `get_action_mask` (action_space.py lines 26-112). -/
def get_action_mask (battle : BattleS) : List Bool :=
  if forced_turn battle.validOrders then (List.replicate 26 false).set 6 true
  else
    let mask := mask_after_rules battle
    if mask.any (fun x => x) then mask else mask.set 6 true

/-! ## Concrete battle snapshots used by witnesses and counterexamples -/

def zeroBoosts : Boosts :=
  ⟨some 0, some 0, some 0, some 0, some 0, some 0, some 0⟩

def stats80 : BaseStats :=
  ⟨some 80, some 80, some 80, some 80, some 80, some 80⟩

def basePokemon : PokemonS :=
  { pid := 0, types := [some .NORMAL, none], ability := none, item := none,
    status := none, curHpFraction := 1, fainted := false, active := false,
    moves := [], baseStats := stats80, boosts := zeroBoosts }

def tackleMove : MoveS :=
  { id := "tackle", mtype := .NORMAL, category := .physical, basePower := 40,
    accuracy := some 100, currentPP := some 35, maxPP := 35 }

def emptyBattle : BattleS :=
  { weather := [], fields := [], sideConditions := [], oppSideConditions := [],
    team := [], oppTeam := [], activePokemon := none, oppActivePokemon := none,
    availableSwitches := [], availableMoves := [], availableZMoves := [],
    canMegaEvolve := false, canZMove := false, canDynamax := false,
    canTera := false, validOrders := [] }

/-- c1Battle: a non-forced turn on which the switch and move rules mark
nothing (empty team, no active Pokemon, no available moves). -/
def c1Battle : BattleS :=
  { emptyBattle with validOrders := [( "/choose move tackle")] }

/-- c2Reserve: a healthy, non-active reserve member. -/
def c2Reserve : PokemonS := { basePokemon with pid := 21 }

/-- c2Active: the active team member. -/
def c2Active : PokemonS :=
  { basePokemon with pid := 20, active := true, moves := [tackleMove] }

/-- c2cexBattle: a forced (wait) turn whose stale available_switches list
still contains the reserve member, as the source comments say can happen. -/
def c2cexBattle : BattleS :=
  { emptyBattle with
    validOrders := [],
    team := [c2Reserve], availableSwitches := [c2Reserve] }

/-- c2wBattle: an ordinary turn with one available switch at absolute team
position 1. -/
def c2wBattle : BattleS :=
  { emptyBattle with
    validOrders := [( "/choose move tackle"), ( "/choose switch 2")],
    team := [c2Active, c2Reserve], activePokemon := some c2Active,
    availableSwitches := [c2Reserve], availableMoves := [tackleMove] }

/-- c9Battle: a forced turn (single default order) on which switches and
moves are nevertheless reported available by the external state. -/
def c9Battle : BattleS :=
  { emptyBattle with
    validOrders := [( "/choose default")],
    team := [c2Active, c2Reserve], activePokemon := some c2Active,
    availableSwitches := [c2Reserve], availableMoves := [tackleMove] }

/-- c6wAttacker: an attacker with no known moves at all. -/
def c6wAttacker : PokemonS :=
  { basePokemon with pid := 61, types := [some .PSYCHIC] }

/-- c6wDefender: a plain normal-type defender. -/
def c6wDefender : PokemonS := { basePokemon with pid := 62 }

/-- c6statusMove: a known status move (base power 0). -/
def c6statusMove : MoveS :=
  { id := "protect", mtype := .NORMAL, category := .status, basePower := 0,
    accuracy := none, currentPP := some 10, maxPP := 10 }

/-- c6cexAttacker: an attacker whose only known move is a status move, so
it has no known damaging moves but a non-empty move list. -/
def c6cexAttacker : PokemonS :=
  { basePokemon with pid := 63, moves := [c6statusMove] }

def c6cexDefender : PokemonS := { basePokemon with pid := 64 }

/-- c8Attacker: a plain attacker. -/
def c8Attacker : PokemonS := { basePokemon with pid := 81 }

/-- c8Flyer: a flying-type defender with boosts, item, ability and status
set, to exercise the immunity short-circuit under active modifiers. -/
def c8Flyer : PokemonS :=
  { basePokemon with
    pid := 82, types := [some .FLYING, some .DRAGON],
    ability := some ( "Multiscale"), item := some ( "Rocky Helmet"),
    boosts := ⟨some 2, some 2, some 0, some 0, some 0, some 0, some 0⟩ }

/-- c8Ground: a pure ground-type defender (immune to electric moves). -/
def c8Ground : PokemonS :=
  { basePokemon with pid := 83, types := [some .GROUND, none] }

def c8statusMv : MoveS :=
  { id := "spikes", mtype := .GROUND, category := .status, basePower := 0,
    accuracy := none, currentPP := some 20, maxPP := 20 }

def c8elecMv : MoveS :=
  { id := "thunderbolt", mtype := .ELECTRIC, category := .special,
    basePower := 90, accuracy := some 100, currentPP := some 15, maxPP := 15 }

def c8groundMv : MoveS :=
  { id := "earthquake", mtype := .GROUND, category := .physical,
    basePower := 100, accuracy := some 100, currentPP := some 16, maxPP := 16 }

/-! ## General helper lemmas -/

/-- Folding a length-preserving step preserves list length. -/
theorem foldl_length_eq {α β : Type} (f : List α → β → List α) (l : List β)
    (h : ∀ acc x, (f acc x).length = acc.length) :
    ∀ init : List α, (l.foldl f init).length = init.length := by
  induction l with
  | nil => intro init; rfl
  | cons b bs ih => intro init; rw [List.foldl_cons, ih, h]

/-- Folding a step that never changes position j leaves position j as it
was in the initial list. -/
theorem foldl_getD_eq {α β : Type} (l : List β) (f : List α → β → List α)
    (j : ℕ) (d : α) :
    (∀ acc x, x ∈ l → (f acc x).getD j d = acc.getD j d) →
    ∀ init : List α, (l.foldl f init).getD j d = init.getD j d := by
  induction l with
  | nil => intro _ init; rfl
  | cons b bs ih =>
    intro h init
    rw [List.foldl_cons, ih (fun acc x hx => h acc x (List.mem_cons_of_mem _ hx)) _,
      h _ _ (List.mem_cons_self _ _)]

/-- Setting one position leaves every other position unchanged. -/
theorem getD_set_ne {α : Type} (l : List α) (i j : ℕ) (a d : α) (h : i ≠ j) :
    (l.set i a).getD j d = l.getD j d := by
  simp [List.getD, List.getElem?_set_ne h]

/-- Setting an in-bounds position stores the given value there. -/
theorem getD_set_self {α : Type} (l : List α) (i : ℕ) (a d : α)
    (h : i < l.length) : (l.set i a).getD i d = a := by
  simp [List.getD, List.getElem?_set_self, h]

set_option maxHeartbeats 1600000 in
/-- TYPE_CHART entries are never negative. -/
theorem TYPE_CHART_nonneg (atk dfd : PType) : 0 ≤ TYPE_CHART atk dfd := by
  cases atk <;> cases dfd <;> with_unfolding_all decide

/-- The effectiveness fold keeps a non-negative accumulator non-negative. -/
theorem type_effectiveness_fold_nonneg (moveType : PType)
    (l : List (Option PType)) :
    ∀ acc : ℚ, 0 ≤ acc →
      0 ≤ l.foldl (fun mult defType =>
        match defType with
        | some d => mult * TYPE_CHART moveType d
        | none => mult) acc := by
  induction l with
  | nil => intro acc h; exact h
  | cons t ts ih =>
    intro acc h
    rw [List.foldl_cons]
    cases t with
    | none => exact ih acc h
    | some d => exact ih _ (mul_nonneg h (TYPE_CHART_nonneg moveType d))

/-- type_effectiveness is non-negative. -/
theorem type_effectiveness_nonneg (moveType : PType) (l : List (Option PType)) :
    0 ≤ type_effectiveness moveType l :=
  type_effectiveness_fold_nonneg moveType l 1 (by norm_num)

/-- The effectiveness fold factors out its accumulator. -/
theorem type_effectiveness_fold_mul (moveType : PType) (l : List (Option PType)) :
    ∀ acc : ℚ, l.foldl (fun mult defType =>
        match defType with
        | some d => mult * TYPE_CHART moveType d
        | none => mult) acc =
      acc * l.foldl (fun mult defType =>
        match defType with
        | some d => mult * TYPE_CHART moveType d
        | none => mult) 1 := by
  induction l with
  | nil => intro acc; simp
  | cons t ts ih =>
    intro acc
    rw [List.foldl_cons, List.foldl_cons]
    cases t with
    | none => exact ih acc
    | some d =>
      dsimp only
      rw [ih (acc * TYPE_CHART moveType d), ih (1 * TYPE_CHART moveType d)]
      ring

/-- A zero chart entry against any present defender type zeroes the whole
effectiveness product. -/
theorem type_effectiveness_zero_of_mem (moveType : PType)
    (l : List (Option PType)) (u : PType) (hu : (some u) ∈ l)
    (hz : TYPE_CHART moveType u = 0) :
    type_effectiveness moveType l = 0 := by
  unfold type_effectiveness
  induction l with
  | nil => cases hu
  | cons t ts ih =>
    rw [List.foldl_cons]
    rcases List.mem_cons.mp hu with h | h
    · rw [← h]
      dsimp only
      rw [hz, mul_zero, type_effectiveness_fold_mul, zero_mul]
    · cases t with
      | none => exact ih h
      | some d =>
        dsimp only
        rw [type_effectiveness_fold_mul, ih h, mul_zero]

/-! ## C3, C4, C7, C10 -/

/-- C3: the KO probability is 1 when minimum-roll best damage reaches the
current HP fraction, 0 when maximum-roll best damage is strictly below it,
0 in the degenerate case dMax - dMin < 1e-8, and otherwise the linear
interpolation (dMax - hp)/(dMax - dMin) clamped to [0, 1]. -/
theorem ko_probability_two_point_interpolation (attacker defender : PokemonS)
    (battle : Option BattleS) (isOwnAttack : Bool) :
    ko_probability attacker defender battle isOwnAttack =
      (let dMin := best_damage_vs attacker defender battle isOwnAttack (17/20)
       let dMax := best_damage_vs attacker defender battle isOwnAttack 1
       let hp := defender.curHpFraction
       if dMin ≥ hp then 1
       else if dMax < hp then 0
       else if dMax - dMin < 1/100000000 then 0
       else min (max ((dMax - hp) / (dMax - dMin)) 0) 1) := rfl

/-- C4: the damage estimator's pre-HP-normalization base damage for a
level-100 attack with power 80 into effective stats 150/100 and neutral
modifiers is exactly 102, through the nested integer-floor formula. -/
theorem baseDamage_literal_102 : baseDamage 80 150 100 = 102 := by
  norm_num [baseDamage]

/-- C7: the chart is asymmetric (Water beats Fire at 2.0 while Fire into
Water is 0.5), and effectiveness against one or two defender types is the
product of the single-type lookups, an absent second slot being skipped. -/
theorem type_chart_asymmetry_and_product :
    TYPE_CHART .WATER .FIRE = 2 ∧
    TYPE_CHART .FIRE .WATER = 1/2 ∧
    (∀ atk t1 : PType, type_effectiveness atk [some t1] = TYPE_CHART atk t1) ∧
    (∀ atk t1 t2 : PType, type_effectiveness atk [some t1, some t2] =
      TYPE_CHART atk t1 * TYPE_CHART atk t2) ∧
    (∀ atk t1 : PType, type_effectiveness atk [some t1, none] = TYPE_CHART atk t1) := by
  refine ⟨rfl, rfl, ?_, ?_, ?_⟩ <;>
    intros <;> simp [type_effectiveness, List.foldl]

/-- C10: an item or ability identifier absent from every modifier registry
yields the neutral multiplier 1.0 from each item lookup and the empty
parameter record (modeled as none) from the ability-parameter lookups. -/
theorem modifier_lookup_unknown_neutral (itemName abilityName : String)
    (isPhysical : Bool) (moveType : Option PType) (effectiveness : ℚ)
    (h1 : ATTACK_ITEMS.lookup itemName = none)
    (h2 : TYPE_BOOST_ITEMS.lookup itemName = none)
    (h3 : DEFENSE_ITEMS.lookup itemName = none)
    (h4 : SPEED_ITEMS.lookup itemName = none)
    (h5 : ATTACK_ABILITIES.lookup abilityName = none)
    (h6 : DEFENSE_ABILITIES.lookup abilityName = none) :
    get_attack_item_mult (some itemName) isPhysical moveType effectiveness = 1 ∧
    get_defense_item_divisor (some itemName) isPhysical moveType = 1 ∧
    get_speed_item_mult (some itemName) = 1 ∧
    get_attack_ability_params abilityName = none ∧
    get_defense_ability_params abilityName = none := by
  refine ⟨?_, ?_, ?_, h5, h6⟩
  · cases moveType <;> simp [get_attack_item_mult, h1, h2]
  · simp [get_defense_item_divisor, h3]
  · simp [get_speed_item_mult, h4]

/-! ## Action-mask lemmas -/

theorem set_if_length (m : List Bool) (c : Bool) (k : ℕ) :
    (set_if m c k).length = m.length := by
  unfold set_if
  split <;> simp

theorem set_if_getD_ne (m : List Bool) (c : Bool) (k j : ℕ) (d : Bool)
    (h : k ≠ j) : (set_if m c k).getD j d = m.getD j d := by
  unfold set_if
  split
  · exact getD_set_ne m k j true d h
  · rfl

theorem switch_step_length (ids : List ℕ) (team : List PokemonS)
    (acc : List Bool) (i : ℕ) :
    (switch_step ids team acc i).length = acc.length := by
  unfold switch_step
  rcases team.get? i with _ | p
  · rfl
  · dsimp only
    split <;> simp

theorem switch_step_getD_ne (ids : List ℕ) (team : List PokemonS)
    (acc : List Bool) (i j : ℕ) (h : i ≠ j) :
    (switch_step ids team acc i).getD j false = acc.getD j false := by
  unfold switch_step
  rcases team.get? i with _ | p
  · rfl
  · dsimp only
    split
    · exact getD_set_ne acc i j true false h
    · rfl

theorem switch_step_getD_self (ids : List ℕ) (team : List PokemonS)
    (acc : List Bool) (j : ℕ) (hlen : j < acc.length) :
    (switch_step ids team acc j).getD j false =
      (match team.get? j with
       | some p => if ids.contains p.pid then true else acc.getD j false
       | none => acc.getD j false) := by
  unfold switch_step
  rcases team.get? j with _ | p
  · rfl
  · dsimp only
    by_cases hc : ids.contains p.pid = true
    · rw [if_pos hc, if_pos hc]
      exact getD_set_self acc j true false hlen
    · rw [if_neg hc, if_neg hc]

theorem move_step_length (b : BattleS) (active : PokemonS)
    (mids zids : List String) (acc : List Bool) (i : ℕ) :
    (move_step b active mids zids acc i).length = acc.length := by
  unfold move_step
  rcases active.moves.get? i with _ | mv
  · rfl
  · dsimp only
    split
    · simp [set_if_length]
    · rfl

theorem move_step_getD_lt6 (b : BattleS) (active : PokemonS)
    (mids zids : List String) (acc : List Bool) (i j : ℕ) (hj : j < 6) :
    (move_step b active mids zids acc i).getD j false = acc.getD j false := by
  unfold move_step
  rcases active.moves.get? i with _ | mv
  · rfl
  · dsimp only
    split
    · rw [set_if_getD_ne _ _ _ _ _ (by omega), set_if_getD_ne _ _ _ _ _ (by omega),
        set_if_getD_ne _ _ _ _ _ (by omega), set_if_getD_ne _ _ _ _ _ (by omega),
        getD_set_ne _ _ _ _ _ (by omega)]
    · rfl

theorem switch_mask_length (b : BattleS) (m : List Bool) :
    (switch_mask b m).length = m.length := by
  unfold switch_mask
  exact foldl_length_eq _ _ (fun acc x => switch_step_length _ _ acc x) m

theorem move_mask_length (b : BattleS) (m : List Bool) :
    (move_mask b m).length = m.length := by
  unfold move_mask
  dsimp only
  split
  · simp
  · cases b.activePokemon with
    | none => rfl
    | some active =>
      exact foldl_length_eq _ _ (fun acc x => move_step_length _ _ _ _ acc x) m

theorem mask_after_rules_length (b : BattleS) :
    (mask_after_rules b).length = 26 := by
  unfold mask_after_rules
  rw [move_mask_length, switch_mask_length]
  simp

theorem move_mask_getD_lt6 (b : BattleS) (m : List Bool) (j : ℕ) (hj : j < 6) :
    (move_mask b m).getD j false = m.getD j false := by
  unfold move_mask
  dsimp only
  split
  · exact getD_set_ne m 6 j true false (by omega)
  · cases b.activePokemon with
    | none => rfl
    | some active =>
      exact foldl_getD_eq _ _ j false
        (fun acc x _ => move_step_getD_lt6 b active _ _ acc x j hj) m

theorem getD_replicate {α : Type} (n i : ℕ) (d : α) :
    (List.replicate n d).getD i d = d := by
  induction n generalizing i with
  | zero => rfl
  | succ n ih =>
    cases i with
    | zero => rfl
    | succ j => exact ih j

theorem mask_after_rules_getD_lt6 (b : BattleS) (i : ℕ) (hi : i < 6) :
    (mask_after_rules b).getD i false =
      (b.team.get? i).any
        (fun p => (b.availableSwitches.map (fun q => q.pid)).contains p.pid) := by
  unfold mask_after_rules
  rw [move_mask_getD_lt6 _ _ _ hi]
  unfold switch_mask
  cases hteam : b.team.get? i with
  | none =>
    simp only [Option.any_none]
    refine (foldl_getD_eq _ _ i false ?_ _).trans (getD_replicate 26 i false)
    intro acc x _
    by_cases hxi : x = i
    · subst hxi
      unfold switch_step
      rw [hteam]
    · exact switch_step_getD_ne _ _ acc x i hxi
  | some p =>
    simp only [Option.any_some]
    interval_cases i
    all_goals
      simp only [show List.range 6 = [0, 1, 2, 3, 4, 5] from rfl,
        List.foldl_cons, List.foldl_nil]
      simp +decide only [switch_step_getD_ne, switch_step_getD_self,
        switch_step_length, List.length_replicate, hteam, getD_replicate]
      cases hcont : (b.availableSwitches.map (fun q => q.pid)).contains p.pid <;>
        simp [hcont]

theorem get_action_mask_getD_lt6 (b : BattleS)
    (hf : forced_turn b.validOrders = false) (i : ℕ) (hi : i < 6) :
    (get_action_mask b).getD i false = (mask_after_rules b).getD i false := by
  unfold get_action_mask
  simp only [hf, Bool.false_eq_true, if_false]
  split
  · rfl
  · exact getD_set_ne _ _ _ _ _ (by omega)

/-! ## C1, C2, C9 -/

/-- C1 (counterexample): on a state where no action is marked legal after
the switch and move rules, the fallback does NOT mark all actions legal:
index 0 stays illegal while only the default slot 6 is marked. -/
theorem mask_fallback_not_all_legal :
    mask_after_rules c1Battle = List.replicate 26 false ∧
    (get_action_mask c1Battle).getD 0 false = false ∧
    (get_action_mask c1Battle).getD 6 false = true := by
  refine ⟨?_, ?_, ?_⟩ <;> with_unfolding_all decide

/-- C1 (amended): if no action is legal after the switch and move rules,
the resolver does not fail and falls back to marking exactly the designated
default slot (index 6) legal. -/
theorem mask_fallback_default_slot (b : BattleS)
    (h : mask_after_rules b = List.replicate 26 false) :
    get_action_mask b = (List.replicate 26 false).set 6 true := by
  unfold get_action_mask
  split
  · rfl
  · simp only [h]
    decide

/-- C1 witness: the fallback applied to a concrete empty-rules state. -/
theorem mask_fallback_default_slot_witness :
    get_action_mask c1Battle = (List.replicate 26 false).set 6 true :=
  mask_fallback_default_slot c1Battle (by with_unfolding_all decide)

/-- C2 (counterexample): on a forced (wait) turn the mask is False at every
switch slot even though the team member at absolute position 0 exists, is
not active, is not fainted, and is among available_switches — refuting the
claimed equivalence over every battle state. -/
theorem switch_indices_claim_counterexample :
    c2cexBattle.team.get? 0 = some c2Reserve ∧
    (c2cexBattle.availableSwitches.map (fun q => q.pid)).contains c2Reserve.pid = true ∧
    c2Reserve.active = false ∧
    c2Reserve.fainted = false ∧
    (get_action_mask c2cexBattle).getD 0 false = false := by
  refine ⟨?_, ?_, ?_, ?_, ?_⟩ <;> with_unfolding_all decide

/-- C2 (amended): on every turn that is not a forced/wait turn, and for a
well-formed snapshot (available switches are non-active, non-fainted, and
object identity is faithful), the mask is True at switch index i < 6 iff
the team member at absolute position i exists and is among the available
switches (hence not active and not fainted).  Switch indices refer to
absolute roster positions, never to positions in the filtered
available-switch list. -/
theorem switch_indices_absolute (b : BattleS)
    (hforced : forced_turn b.validOrders = false)
    (hgood : ∀ q ∈ b.availableSwitches, q.active = false ∧ q.fainted = false)
    (hinj : ∀ q ∈ b.availableSwitches, ∀ p ∈ b.team, q.pid = p.pid → q = p)
    (i : ℕ) (hi : i < 6) :
    (get_action_mask b).getD i false = true ↔
      ∃ p, b.team.get? i = some p ∧
        (∃ q ∈ b.availableSwitches, q.pid = p.pid) ∧
        p.active = false ∧ p.fainted = false := by
  rw [get_action_mask_getD_lt6 b hforced i hi, mask_after_rules_getD_lt6 b i hi]
  cases hteam : b.team.get? i with
  | none => simp
  | some p =>
    simp only [Option.any_some]
    constructor
    · intro hcont
      have hmem : p.pid ∈ b.availableSwitches.map (fun q => q.pid) := by
        simpa using hcont
      obtain ⟨q, hq, hqp⟩ := List.mem_map.mp hmem
      have hpteam : p ∈ b.team := List.get?_mem hteam
      have hqe : q = p := hinj q hq p hpteam hqp
      rcases hgood q hq with ⟨ha, hf2⟩
      exact ⟨p, rfl, ⟨q, hq, hqp⟩, hqe ▸ ha, hqe ▸ hf2⟩
    · rintro ⟨p2, hp2, ⟨q, hq, hqp⟩, -, -⟩
      have hpe : p2 = p := (Option.some.inj hp2).symm
      subst hpe
      have : p2.pid ∈ b.availableSwitches.map (fun r => r.pid) :=
        List.mem_map.mpr ⟨q, hq, hqp⟩
      simpa using this

/-- C2 witness: the reserve member at absolute team position 1 of a
concrete battle is masked legal at switch index 1. -/
theorem switch_indices_absolute_witness :
    (get_action_mask c2wBattle).getD 1 false = true := by
  refine (switch_indices_absolute c2wBattle (by with_unfolding_all decide)
    (by with_unfolding_all decide) (by with_unfolding_all decide) 1
    (by norm_num)).mpr ?_
  exact ⟨c2Reserve, rfl, ⟨c2Reserve, by with_unfolding_all decide, rfl⟩, rfl, rfl⟩

/-- C9: when the valid-order list is empty or holds only the default
order, the mask marks exactly one action legal: the designated default
slot at index 6. -/
theorem forced_turn_exactly_one_action (b : BattleS)
    (h : b.validOrders = [] ∨ b.validOrders = [( "/choose default")]) :
    get_action_mask b = (List.replicate 26 false).set 6 true ∧
    (get_action_mask b).count true = 1 ∧
    (get_action_mask b).getD 6 false = true := by
  have hf : forced_turn b.validOrders = true := by
    rcases h with h | h <;> rw [h] <;> rfl
  have hmask : get_action_mask b = (List.replicate 26 false).set 6 true := by
    unfold get_action_mask
    simp only [hf, if_true]
  refine ⟨hmask, ?_, ?_⟩ <;> rw [hmask] <;> decide

/-- C9 witness: a concrete forced turn (single default order, with stale
available switches and moves present) yields the single-action mask. -/
theorem forced_turn_exactly_one_action_witness :
    get_action_mask c9Battle = (List.replicate 26 false).set 6 true ∧
    (get_action_mask c9Battle).count true = 1 ∧
    (get_action_mask c9Battle).getD 6 false = true :=
  forced_turn_exactly_one_action c9Battle (Or.inr rfl)

/-! ## Encoder length lemmas -/

theorem encode_types_length (p : PokemonS) : (encode_types p).length = 18 := by
  unfold encode_types
  refine (foldl_length_eq _ _ ?_ _).trans (by simp)
  intro acc t
  rcases t with _ | tt
  · rfl
  · dsimp only
    split <;> simp

theorem encode_status_length (p : PokemonS) : (encode_status p).length = 7 := by
  unfold encode_status
  cases p.status with
  | none => simp
  | some s =>
    dsimp only
    split <;> simp

theorem encode_boosts_length (p : PokemonS) : (encode_boosts p).length = 7 := by
  simp [encode_boosts]

theorem encode_move_length (mv : Option MoveS) (p : PokemonS) :
    (encode_move mv p).length = 25 := by
  cases mv with
  | none => simp [encode_move]
  | some m =>
    simp only [encode_move, List.length_set, apply_ite List.length,
      List.length_replicate, ite_self]

theorem encode_active_pokemon_length (p : PokemonS) (isOwn : Bool) :
    (encode_active_pokemon p isOwn).length = 138 := by
  unfold encode_active_pokemon
  cases isOwn <;>
    simp [encode_types_length, encode_status_length, encode_boosts_length,
      encode_move_length, List.length_flatten, List.map_map,
      show List.range 4 = [0, 1, 2, 3] from rfl, Function.comp, N_MOVES]

theorem encode_reserve_pokemon_length (p : Option PokemonS) :
    (encode_reserve_pokemon p).length = 20 := by
  cases p with
  | none => simp [encode_reserve_pokemon]
  | some q => simp [encode_reserve_pokemon, encode_types_length]

theorem encode_field_length (b : BattleS) : (encode_field b).length = 28 := by
  unfold encode_field
  cases b.weather.head? with
  | none =>
    cases b.fields.find? (fun f => FIELDS.contains f) with
    | none => simp
    | some f => simp
  | some wk =>
    cases b.fields.find? (fun f => FIELDS.contains f) with
    | none =>
      dsimp only
      split <;> simp
    | some f =>
      dsimp only
      split <;> simp

theorem combat_move_vec_length (own opp : PokemonS) (b : BattleS) (i : ℕ) :
    (combat_move_vec own opp b i).length = 8 := by
  unfold combat_move_vec
  cases own.moves.get? i with
  | none => simp
  | some move => simp [List.length_set]

theorem encode_combat_analysis_length (own opp : PokemonS) (b : BattleS) :
    (encode_combat_analysis own opp b).length = 36 := by
  unfold encode_combat_analysis
  simp [List.length_flatten, List.map_map,
    show List.range N_MOVES = [0, 1, 2, 3] from rfl, Function.comp,
    combat_move_vec_length, List.length_set]

theorem encode_switch_analysis_length (reserve : List (Option PokemonS))
    (oppActive : Option PokemonS) (b : Option BattleS) :
    (encode_switch_analysis reserve oppActive b).length = 30 := by
  unfold encode_switch_analysis
  cases oppActive with
  | none => simp
  | some opp =>
    dsimp only
    refine (foldl_length_eq _ _ ?_ _).trans (by simp)
    intro acc i
    rcases hres : reserve.get? i with _ | po
    · rfl
    · rcases po with _ | poke
      · rfl
      · dsimp only
        split
        · rfl
        · rcases (opp.types.filterMap id).head? with _ | opt
          · simp [List.length_set]
          · dsimp only
            repeat' split
            all_goals simp [List.length_set]

theorem eb_own_active_length (b : BattleS) : (eb_own_active b).length = 138 := by
  unfold eb_own_active
  cases b.activePokemon with
  | none => simp [active_pokemon_size, N_MOVES]
  | some p => exact encode_active_pokemon_length p true

theorem eb_combat_length (b : BattleS) : (eb_combat b).length = 36 := by
  unfold eb_combat
  cases b.activePokemon with
  | none => simp [combat_analysis_size, N_MOVES]
  | some ow =>
    cases b.oppActivePokemon with
    | none => simp [combat_analysis_size, N_MOVES]
    | some op => exact encode_combat_analysis_length ow op b

theorem eb_switch_length (b : BattleS) : (eb_switch b).length = 30 := by
  unfold eb_switch
  cases b.oppActivePokemon with
  | none => simp [switch_analysis_size]
  | some op => exact encode_switch_analysis_length _ _ _

theorem eb_own_reserve_length (b : BattleS) : (eb_own_reserve b).length = 100 := by
  unfold eb_own_reserve
  simp [List.length_flatten, List.map_map, show List.range 5 = [0, 1, 2, 3, 4] from rfl,
    Function.comp, encode_reserve_pokemon_length]

theorem eb_opp_active_length (b : BattleS) : (eb_opp_active b).length = 138 := by
  unfold eb_opp_active
  cases b.oppActivePokemon with
  | none => simp [active_pokemon_size, N_MOVES]
  | some p => exact encode_active_pokemon_length p false

theorem eb_opp_reserve_length (b : BattleS) : (eb_opp_reserve b).length = 100 := by
  unfold eb_opp_reserve
  simp [List.length_flatten, List.map_map, show List.range 5 = [0, 1, 2, 3, 4] from rfl,
    Function.comp, encode_reserve_pokemon_length]

theorem encode_battle_length (b : BattleS) : (encode_battle b).length = 570 := by
  unfold encode_battle
  simp [List.length_append, eb_own_active_length, eb_combat_length,
    eb_switch_length, eb_own_reserve_length, eb_opp_active_length,
    eb_opp_reserve_length, encode_field_length]

/-! ## C5 -/

/-- C5: for every battle snapshot the encoded observation vector has the
constant length get_observation_size = 570, and with a fully unrevealed
opponent the opponent-active section is an all-zero 138-subvector at offset
304 rather than being omitted. -/
theorem encode_battle_shape (b : BattleS) :
    (encode_battle b).length = get_observation_size ∧
    get_observation_size = 570 ∧
    (b.oppActivePokemon = none →
      ∃ pre suf, encode_battle b = pre ++ List.replicate 138 0 ++ suf ∧
        pre.length = 304 ∧ suf.length = 128) := by
  have hobs : get_observation_size = 570 := by decide
  refine ⟨by rw [hobs]; exact encode_battle_length b, hobs, ?_⟩
  intro hopp
  refine ⟨eb_own_active b ++ eb_combat b ++ eb_switch b ++ eb_own_reserve b,
    eb_opp_reserve b ++ encode_field b, ?_, ?_, ?_⟩
  · have h5 : eb_opp_active b = List.replicate 138 0 := by
      unfold eb_opp_active
      rw [hopp]
      have : active_pokemon_size = 138 := by decide
      rw [this]
    unfold encode_battle
    rw [h5]
    simp [List.append_assoc]
  · simp [List.length_append, eb_own_active_length, eb_combat_length,
      eb_switch_length, eb_own_reserve_length]
  · simp [List.length_append, eb_opp_reserve_length, encode_field_length]

/-- C5 witness: the shape facts applied to a concrete snapshot with empty
teams and a fully unrevealed opponent. -/
theorem encode_battle_shape_witness :
    (encode_battle emptyBattle).length = get_observation_size ∧
    get_observation_size = 570 ∧
    (∃ pre suf, encode_battle emptyBattle = pre ++ List.replicate 138 0 ++ suf ∧
      pre.length = 304 ∧ suf.length = 128) :=
  ⟨(encode_battle_shape emptyBattle).1, (encode_battle_shape emptyBattle).2.1,
   (encode_battle_shape emptyBattle).2.2 rfl⟩

/-! ## Damage positivity helpers -/

theorem stat_at_100_pos (base : ℕ) (isHp : Bool) : 0 < stat_at_100 base isHp := by
  unfold stat_at_100
  have h1 : ((2 * (base : ℚ) + 31 + 21) * 100 / 100) = ((2 * base + 52 : ℕ) : ℚ) := by
    push_cast
    ring
  rw [h1, Int.floor_natCast]
  cases isHp <;> push_cast <;> positivity

theorem stat_at_100_nonneg (base : ℕ) (isHp : Bool) : 0 ≤ stat_at_100 base isHp :=
  le_of_lt (stat_at_100_pos base isHp)

theorem baseDamage_ge_two (p a d : ℚ) (hp : 0 ≤ p) (ha : 0 ≤ a) (hd : 0 ≤ d) :
    (2 : ℚ) ≤ ((baseDamage p a d : ℤ) : ℚ) := by
  unfold baseDamage
  have h42 : (⌊((2 : ℚ) * 100 / 5 + 2)⌋ : ℤ) = 42 := by norm_num
  rw [h42]
  have hx : (0 : ℚ) ≤ ((42 : ℤ) : ℚ) * p * a / d / 50 := by
    apply div_nonneg _ (by norm_num)
    apply div_nonneg _ hd
    positivity
  have h1 : (0 : ℤ) ≤ ⌊((42 : ℤ) : ℚ) * p * a / d / 50⌋ := Int.floor_nonneg.mpr hx
  have h2 : (⌊((⌊((42 : ℤ) : ℚ) * p * a / d / 50⌋ : ℚ) + 2)⌋ : ℤ) =
      ⌊((42 : ℤ) : ℚ) * p * a / d / 50⌋ + 2 := by
    rw [show ((2 : ℚ)) = ((2 : ℤ) : ℚ) by norm_num, Int.floor_add_int, Int.floor_intCast]
  rw [h2]
  push_cast at h1 ⊢
  have h1Q : (0 : ℚ) ≤ ((⌊(42 : ℚ) * p * a / d / 50⌋ : ℤ) : ℚ) := by
    exact_mod_cast h1
  linarith

theorem le_foldl_of_mono {α : Type} (f : ℚ → α → ℚ)
    (hmono : ∀ acc t, acc ≤ f acc t) (l : List α) :
    ∀ acc, acc ≤ l.foldl f acc := by
  induction l with
  | nil => intro acc; exact le_refl acc
  | cons b bs ih => intro acc; exact le_trans (hmono acc b) (ih (f acc b))

theorem foldl_pos_of_mem {α : Type} (f : ℚ → α → ℚ) (l : List α) (x : α)
    (hx : x ∈ l)
    (hmono : ∀ acc t, acc ≤ f acc t)
    (hstep : ∀ acc, 0 < f acc x) :
    ∀ acc, 0 < l.foldl f acc := by
  induction l with
  | nil => cases hx
  | cons b bs ih =>
    intro acc
    rw [List.foldl_cons]
    rcases List.mem_cons.mp hx with h | h
    · subst h
      exact lt_of_lt_of_le (hstep acc) (le_foldl_of_mono f hmono bs (f acc x))
    · exact ih h (f acc b)

/-! ## C6 -/

/-- C6 (counterexample): an attacker with a known status move has no known
damaging moves, yet the best-damage estimate is 0 and differs from the
non-zero generic base-power-80 fallback the claim prescribes — the fallback
applies only when no moves at all are known. -/
theorem best_damage_no_damaging_moves_counterexample :
    (∀ mv ∈ c6cexAttacker.moves, mv.basePower = 0) ∧
    best_damage_vs c6cexAttacker c6cexDefender none true (37/40) = 0 ∧
    fallback_damage c6cexAttacker c6cexDefender (37/40) ≠ 0 := by
  refine ⟨by decide, by with_unfolding_all decide, by with_unfolding_all decide⟩

/-- C6 (amended): for an attacker with no known moves at all, the
best-damage estimate is the generic base-power-80 same-type fallback
(best offensive stat into the weaker relevant defensive stat, maximum over
the attacker's types), and it is strictly positive for a positive roll
unless every attacker type is immune against the defender. -/
theorem best_damage_unknown_moves_fallback (attacker defender : PokemonS)
    (battle : Option BattleS) (isOwnAttack : Bool) (roll : ℚ)
    (hmoves : attacker.moves = []) (hroll : 0 < roll) :
    best_damage_vs attacker defender battle isOwnAttack roll =
      fallback_damage attacker defender roll ∧
    ((∃ tt : PType, (some tt) ∈ attacker.types ∧
        type_effectiveness tt defender.types ≠ 0) →
      0 < best_damage_vs attacker defender battle isOwnAttack roll) := by
  have heq : best_damage_vs attacker defender battle isOwnAttack roll =
      fallback_damage attacker defender roll := by
    unfold best_damage_vs
    rw [hmoves]
    rfl
  refine ⟨heq, ?_⟩
  rintro ⟨tt, hmem, heff⟩
  rw [heq]
  unfold fallback_damage
  have heffpos : 0 < type_effectiveness tt defender.types :=
    lt_of_le_of_ne (type_effectiveness_nonneg tt defender.types) (Ne.symm heff)
  refine foldl_pos_of_mem _ _ (some tt) hmem ?_ ?_ 0
  · intro acc t
    rcases t with _ | u
    · exact le_refl acc
    · dsimp only
      split
      · exact le_refl acc
      · exact le_max_left _ _
  · intro acc
    dsimp only
    rw [if_neg heff]
    refine lt_of_lt_of_le ?_ (le_max_right _ _)
    refine lt_min ?_ one_pos
    apply div_pos
    · have hbase : (2 : ℚ) ≤ ((baseDamage 80
          (stat_at_100 (max (attacker.baseStats.atk.getD 80) (attacker.baseStats.spa.getD 80)) false)
          (stat_at_100 (min (defender.baseStats.dfn.getD 80) (defender.baseStats.spd.getD 80)) false) : ℤ) : ℚ) :=
        baseDamage_ge_two _ _ _ (by norm_num) (stat_at_100_nonneg _ _) (stat_at_100_nonneg _ _)
      have : (0 : ℚ) < ((baseDamage 80
          (stat_at_100 (max (attacker.baseStats.atk.getD 80) (attacker.baseStats.spa.getD 80)) false)
          (stat_at_100 (min (defender.baseStats.dfn.getD 80) (defender.baseStats.spd.getD 80)) false) : ℤ) : ℚ) := by
        linarith
      have h32 : (0 : ℚ) < 3/2 := by norm_num
      exact mul_pos (mul_pos (mul_pos this hroll) h32) heffpos
    · exact stat_at_100_pos _ _

/-- C6 witness: a moveless psychic-type attacker gets the positive fallback
estimate against a normal-type defender. -/
theorem best_damage_unknown_moves_fallback_witness :
    best_damage_vs c6wAttacker c6wDefender none true 1 =
      fallback_damage c6wAttacker c6wDefender 1 ∧
    0 < best_damage_vs c6wAttacker c6wDefender none true 1 := by
  have h := best_damage_unknown_moves_fallback c6wAttacker c6wDefender none true 1
    rfl one_pos
  exact ⟨h.1, h.2 ⟨.PSYCHIC, by decide, by with_unfolding_all decide⟩⟩

/-! ## C8 -/

/-- C8: the damage estimator returns exactly 0 for status moves (base
power 0) and for type-immune interactions; in particular a flying-type
defender takes 0 from any ground-type move regardless of the other
modifiers. -/
theorem estimate_damage_zero_cases (mv : MoveS) (attacker defender : PokemonS)
    (battle : Option BattleS) (isOwnAttack : Bool) (roll : ℚ) :
    (mv.basePower = 0 →
      estimate_damage (some mv) attacker defender battle isOwnAttack roll = 0) ∧
    (type_effectiveness mv.mtype defender.types = 0 →
      estimate_damage (some mv) attacker defender battle isOwnAttack roll = 0) ∧
    (mv.mtype = PType.GROUND → (some PType.FLYING) ∈ defender.types →
      estimate_damage (some mv) attacker defender battle isOwnAttack roll = 0) := by
  have h2 : type_effectiveness mv.mtype defender.types = 0 →
      estimate_damage (some mv) attacker defender battle isOwnAttack roll = 0 := by
    intro h
    unfold estimate_damage
    simp [h]
  refine ⟨?_, h2, ?_⟩
  · intro h
    unfold estimate_damage
    simp [h]
  · intro hty hmem
    apply h2
    rw [hty]
    exact type_effectiveness_zero_of_mem PType.GROUND defender.types PType.FLYING hmem rfl

/-- C8 witness: the three zero cases at concrete inputs: a status move, an
electric move into a ground type, and a ground move into a boosted,
item-holding flying type. -/
theorem estimate_damage_zero_cases_witness :
    estimate_damage (some c8statusMv) c8Attacker c8Flyer none true (37/40) = 0 ∧
    estimate_damage (some c8elecMv) c8Attacker c8Ground none true (37/40) = 0 ∧
    estimate_damage (some c8groundMv) c8Attacker c8Flyer none true (37/40) = 0 := by
  refine ⟨(estimate_damage_zero_cases c8statusMv c8Attacker c8Flyer none true (37/40)).1 rfl,
    (estimate_damage_zero_cases c8elecMv c8Attacker c8Ground none true (37/40)).2.1
      (by with_unfolding_all decide),
    (estimate_damage_zero_cases c8groundMv c8Attacker c8Flyer none true (37/40)).2.2
      rfl (by decide)⟩

/-- C10 witness: a concrete unregistered item and ability resolve to the
neutral values. -/
theorem modifier_lookup_unknown_neutral_witness :
    get_attack_item_mult (some ( "zzzunknownitem")) true (some .FIRE) 2 = 1 ∧
    get_defense_item_divisor (some ( "zzzunknownitem")) true (some .FIRE) = 1 ∧
    get_speed_item_mult (some ( "zzzunknownitem")) = 1 ∧
    get_attack_ability_params ( "zzzunknownability") = none ∧
    get_defense_ability_params ( "zzzunknownability") = none :=
  modifier_lookup_unknown_neutral ( "zzzunknownitem") ( "zzzunknownability")
    true (some .FIRE) 2 rfl rfl rfl rfl rfl rfl

end PS
